import Mathlib

/-!
Verification of the Bank-Swift money-transfer core against its spec.

Money is modelled in integer cents (`Int`); timestamps in integer
milliseconds.  JavaScript `null`/missing fields are `Option`; JS string
truthiness (`x || d`) is modelled by treating `none` and `some ""` as falsy.
Randomly generated claim tokens and the clock are passed in as parameters.

Three variants are embedded:
* `PG`  — the Postgres email-keyed variant (src/unnamed/part_000),
* `CFG` — the Postgres account-keyed variant (src/config.js),
* `SRV` — the SQLite variant (src/server.js) with its idempotency layer.
Plus `CONC`, a two-process interleaving model of the balance
check-and-update protocols, and `RB`, the running-balance walk of
GET /api/transactions.
-/

/-- Direction of a transaction-log row (`type IN ('debit','credit')`). -/
inductive TxType where
  | debit
  | credit
deriving DecidableEq, Repr

/-- Account column selector: part_000 keeps per-type balances as the
`checking` / `savings` columns of `users`; the handler validates the
request strings against exactly this set, so the embedding uses the enum. -/
inductive AccType where
  | checking
  | savings
deriving DecidableEq, Repr

/-- JS `x || d` for an optional string: `none` and `""` are falsy. -/
def jsOr (o : Option String) (d : String) : String :=
  match o with
  | none => d
  | some s => if s = "" then d else s

/-- JS `x || null` for an optional string: `""` collapses to `null`. -/
def jsOpt (o : Option String) : Option String :=
  match o with
  | none => none
  | some s => if s = "" then none else some s

/-- JS truthiness of an optional string (`!!x`). -/
def jsTruthy (o : Option String) : Bool :=
  match o with
  | none => false
  | some s => s ≠ ""

/-- JS `String.prototype.toLowerCase`, written over the character list so
that it evaluates by kernel reduction. -/
def strLower (s : String) : String := ⟨s.data.map Char.toLower⟩

/-- JS `String.prototype.trim`, written over the character list so that it
evaluates by kernel reduction. -/
def strTrim (s : String) : String :=
  ⟨((s.data.dropWhile Char.isWhitespace).reverse.dropWhile Char.isWhitespace).reverse⟩

/-- part_000: `(recipient_email || "").toLowerCase().trim() || null`. -/
def normEmailOpt (o : Option String) : Option String :=
  let s := strTrim (strLower (jsOr o ""))
  if s = "" then none else some s

/-- part_000: `(recipient_name || "").toString().trim() || null`. -/
def normNameOpt (o : Option String) : Option String :=
  let s := strTrim (jsOr o "")
  if s = "" then none else some s

namespace PG

/-- A row of the part_000 `users` table (the columns the transfer and
transaction handlers touch: per-type balances and the authoritative
`totalbalance`). -/
structure UserRow where
  id : Nat
  email : String
  accountname : String
  fullname : String
  checking : Int
  savings : Int
  totalbalance : Int
deriving DecidableEq, Repr

/-- Read the `checking`/`savings` column selected by `sender_account_type`
(`sender[sender_account_type]` in the handler). -/
def UserRow.col (u : UserRow) : AccType → Int
  | AccType.checking => u.checking
  | AccType.savings => u.savings

/-- Write the selected column (the `UPDATE users SET <col>=<col>±$1` statements). -/
def UserRow.setCol (u : UserRow) (t : AccType) (v : Int) : UserRow :=
  match t with
  | AccType.checking => { u with checking := v }
  | AccType.savings => { u with savings := v }

/-- A row of the part_000 `transactions` table. -/
structure TxRow where
  user_email : String
  type : TxType
  amount : Int
  description : String
deriving DecidableEq, Repr

/-- A row of the part_000 `transfers` table. -/
structure TransferRow where
  sender_email : String
  recipient_email : Option String
  recipient_name : Option String
  amount : Int
  status : String
  account_number : Option String
  routing_number : Option String
  btc_address : Option String
  bank_name : Option String
  description : Option String
  method : String
  claim_token : Option String
  claim_expires : Option Int
deriving DecidableEq, Repr

/-- The three tables the transfer's atomic unit may touch. -/
structure DB where
  users : List UserRow
  transactions : List TxRow
  transfers : List TransferRow
deriving DecidableEq, Repr

/-- Body of POST /api/transfers in part_000.  The two account-type fields
default to `checking` in the destructuring; the handler rejects strings
outside `{checking, savings}`, which the enum renders unrepresentable. -/
structure Req where
  sender_email : Option String
  recipient_email : Option String
  recipient_name : Option String
  amount : Option Int
  sender_account_type : AccType
  recipient_account_type : AccType
  account_number : Option String
  routing_number : Option String
  btc_address : Option String
  bank_name : Option String
  description : Option String
  method : Option String
deriving DecidableEq, Repr

/-- Handler outcome: an HTTP error (status, message) after ROLLBACK, or the
201 response carrying the created transfer row after COMMIT. -/
inductive Resp where
  | err : Nat → String → Resp
  | created : TransferRow → Resp
deriving DecidableEq, Repr

/-- `SELECT * FROM users WHERE email=$1` (first match, as in SQL without
ORDER BY on a unique column). -/
def findByEmail (users : List UserRow) (e : String) : Option UserRow :=
  users.find? (fun u => u.email = e)

/-- `SELECT * FROM users WHERE id=$1` (used by the balance `UPDATE`s, which
address rows by `sender.id` / `recipientUser.id`). -/
def findById (users : List UserRow) (i : Nat) : Option UserRow :=
  users.find? (fun u => u.id = i)

/-- The sender email the handler works with:
`(sender_email || req.user?.email || "").toLowerCase().trim()`. -/
def senderEmailOf (req : Req) (requester : String) : String :=
  strTrim (strLower (jsOr req.sender_email requester))

/-- Recipient resolution of part_000: first try the (normalised) recipient
email, then `lower(accountname)=$1 OR lower(fullname)=$1` on the recipient
name; a name match rewrites `recipient_email` to the matched user's email.
Returns the internal recipient (if any) and the resulting recipient email. -/
def resolveRecipient (users : List UserRow) (re rn : Option String) :
    Option UserRow × Option String :=
  match re with
  | some e =>
    match findByEmail users e with
    | some u => (some u, some e)
    | none =>
      match rn with
      | some n =>
        match users.find? (fun u =>
            strLower u.accountname = strLower n ∨ strLower u.fullname = strLower n) with
        | some u => (some u, some u.email)
        | none => (none, re)
      | none => (none, re)
  | none =>
    match rn with
    | some n =>
      match users.find? (fun u =>
          strLower u.accountname = strLower n ∨ strLower u.fullname = strLower n) with
      | some u => (some u, some u.email)
      | none => (none, re)
    | none => (none, re)

/-- Everything the write phase needs, computed by the validation phase. -/
structure OkData where
  sender : UserRow
  senderType : AccType
  recipType : AccType
  recipient : Option UserRow
  amt : Int
  senderDesc : String
  recDesc : String
  row : TransferRow
deriving DecidableEq, Repr

/-- `UPDATE users SET <col>=<col>-$1 WHERE id=$2` on the sender row. -/
def debitUser (sid2 : Nat) (t : AccType) (amt : Int) (u : UserRow) : UserRow :=
  if u.id = sid2 then u.setCol t (u.col t - amt) else u

/-- `UPDATE users SET <col>=<col>+$1 WHERE id=$2` on the recipient row. -/
def creditUser (rid2 : Nat) (t : AccType) (amt : Int) (u : UserRow) : UserRow :=
  if u.id = rid2 then u.setCol t (u.col t + amt) else u

/-- The write phase of the atomic unit (everything between the first
`UPDATE` and `COMMIT` in part_000): debit the sender column, credit the
recipient column when internal, insert the debit (and, if internal, the
credit) transaction rows, insert the transfer row. -/
def applyTransfer (db : DB) (d : OkData) : DB :=
  let users1 := db.users.map (debitUser d.sender.id d.senderType d.amt)
  let users2 :=
    match d.recipient with
    | some r => users1.map (creditUser r.id d.recipType d.amt)
    | none => users1
  let txs1 := db.transactions ++ [⟨d.sender.email, TxType.debit, d.amt, d.senderDesc⟩]
  let txs2 :=
    match d.recipient with
    | some r => txs1 ++ [⟨r.email, TxType.credit, d.amt, d.recDesc⟩]
    | none => txs1
  { users := users2, transactions := txs2, transfers := db.transfers ++ [d.row] }

/-- Validation phase of POST /api/transfers in part_000 (src/unnamed/part_000
lines 629–746): every check precedes the first `UPDATE`, so a failing check
rolls back with the tables untouched.  `requester` is `req.user.email` from
the auth token, `tok` the value `makeToken(18)` would produce, `now` the
clock in ms, `claimDays` the `CLAIM_TOKEN_DAYS` env value (default 7). -/
def validateTransfer (db : DB) (req : Req) (requester tok : String)
    (now claimDays : Int) : Except (Nat × String) OkData :=
  let se := senderEmailOf req requester
  let re0 := normEmailOpt req.recipient_email
  let rn := normNameOpt req.recipient_name
  if se = "" ∨ req.amount = none then
    Except.error (400, "Missing required fields: sender_email and amount")
  else
    let amt := req.amount.getD 0
    if amt ≤ 0 then Except.error (400, "Invalid amount")
    else
      match findByEmail db.users se with
      | none => Except.error (404, "Sender not found")
      | some sender =>
        if sender.col req.sender_account_type < amt then
          Except.error (400, "Insufficient funds")
        else
          let res := resolveRecipient db.users re0 rn
          let recipient := res.1
          let re := res.2
          let isInternal := recipient.isSome
          let hasExternalBank := jsTruthy req.account_number ∧ jsTruthy req.routing_number
          let hasBtc := jsTruthy req.btc_address
          let hasRecipientEmail := re.isSome
          if ¬ isInternal ∧ ¬ hasExternalBank ∧ ¬ hasBtc ∧ ¬ hasRecipientEmail then
            Except.error (400, "Recipient not found. Provide email or external bank/BTC details.")
          else if re.isSome ∧ re = some se then
            Except.error (400, "Cannot transfer to the same account")
          else
            let senderDesc := jsOr req.description
              (match recipient with
               | some r => "Transfer to " ++ (if r.accountname = "" then r.email else r.accountname)
               | none => "External transfer to " ++
                   (jsOr rn (if jsTruthy req.account_number then "bank account" else jsOr re "recipient")))
            let recDesc :=
              match recipient with
              | some _ =>
                "Received in " ++
                  (match req.recipient_account_type with
                   | AccType.checking => "checking"
                   | AccType.savings => "savings") ++
                  " from " ++ (if sender.accountname = "" then sender.email else sender.accountname)
              | none => ""
            let status :=
              if isInternal then "completed"
              else if req.method = some "btc" then "sent" else "pending"
            let pending := ¬ isInternal ∧ status = "pending"
            let claimToken : Option String := if pending then some tok else none
            let claimExpires : Option Int :=
              if pending then some (now + claimDays * 86400000) else none
            Except.ok
              { sender := sender
                senderType := req.sender_account_type
                recipType := req.recipient_account_type
                recipient := recipient
                amt := amt
                senderDesc := senderDesc
                recDesc := recDesc
                row :=
                  { sender_email := sender.email
                    recipient_email := re
                    recipient_name := rn
                    amount := amt
                    status := status
                    account_number := jsOpt req.account_number
                    routing_number := jsOpt req.routing_number
                    btc_address := jsOpt req.btc_address
                    bank_name := jsOpt req.bank_name
                    description := jsOpt req.description
                    method := jsOr req.method "standard"
                    claim_token := claimToken
                    claim_expires := claimExpires } }

/-- POST /api/transfers of part_000: validate, and either roll back (the
database is returned unchanged) or apply the atomic unit and commit. -/
def transfer (db : DB) (req : Req) (requester tok : String)
    (now claimDays : Int) : Resp × DB :=
  match validateTransfer db req requester tok now claimDays with
  | Except.error e => (Resp.err e.1 e.2, db)
  | Except.ok d => (Resp.created d.row, applyTransfer db d)

end PG

namespace CFG

/-- A row of the config.js `accounts` table (the columns the transfer
handler selects: `id, user_id, balance, available, type`). -/
structure Account where
  id : Nat
  user_id : Nat
  balance : Int
  available : Int
  type : String
deriving DecidableEq, Repr

/-- A row of the config.js `users` table (only `id` and `email` matter to
the transfer handler's recipient lookup). -/
structure UserRow where
  id : Nat
  email : String
deriving DecidableEq, Repr

/-- A row of the config.js `transactions` table. -/
structure TxRow where
  account_id : Nat
  type : TxType
  amount : Int
  description : String
deriving DecidableEq, Repr

/-- A row of the config.js `transfers` table. -/
structure TransferRow where
  sender_account_id : Nat
  recipient_account_id : Option Nat
  recipient_email : Option String
  recipient_name : Option String
  amount : Int
  currency : String
  method : String
  status : String
  bank_name : Option String
  account_number : Option String
  routing_number : Option String
  btc_address : Option String
  description : Option String
  claim_token : Option String
  claim_expires : Option Int
deriving DecidableEq, Repr

/-- The tables the config.js transfer may touch. -/
structure DB where
  users : List UserRow
  accounts : List Account
  transactions : List TxRow
  transfers : List TransferRow
deriving DecidableEq, Repr

/-- Body of POST /api/transfers in config.js. -/
structure Req where
  sender_account_id : Option Nat
  recipient_account_id : Option Nat
  recipient_email : Option String
  recipient_name : Option String
  amount : Option Int
  method : Option String
  description : Option String
  bank_name : Option String
  account_number : Option String
  routing_number : Option String
  btc_address : Option String
deriving DecidableEq, Repr

/-- Handler outcome for config.js. -/
inductive Resp where
  | err : Nat → String → Resp
  | created : TransferRow → Resp
deriving DecidableEq, Repr

/-- `SELECT ... FROM accounts WHERE id=$1` (first match). -/
def findAccount (accounts : List Account) (i : Nat) : Option Account :=
  accounts.find? (fun a => a.id = i)

/-- The recipient email the config.js handler looks up and stores:
`recipient_email ? String(recipient_email).toLowerCase() : null` (a falsy
value short-circuits the email path). -/
def reLowerOf (req : Req) : Option String :=
  (jsOpt req.recipient_email).map strLower

/-- Recipient resolution of config.js: a given `recipient_account_id` must
exist (else the whole request 404s); otherwise a `recipient_email` is looked
up in `users` and, when found, that user's first `checking` account is the
internal recipient; any other case is an external transfer.  Returns
`error` for the 404, else the internal recipient account (if any). -/
def resolveRecipient (db : DB) (rid : Option Nat) (reLower : Option String) :
    Except (Nat × String) (Option Account) :=
  match rid with
  | some i =>
    match findAccount db.accounts i with
    | some a => Except.ok (some a)
    | none => Except.error (404, "Recipient account not found")
  | none =>
    match reLower with
    | some e =>
      match db.users.find? (fun u => u.email = e) with
      | some u =>
        match db.accounts.find? (fun a => a.user_id = u.id ∧ a.type = "checking") with
        | some a => Except.ok (some a)
        | none => Except.ok none
      | none => Except.ok none
    | none => Except.ok none

/-- Everything the config.js write phase needs. -/
structure OkData where
  sender : Account
  recipient : Option Account
  amt : Int
  senderDesc : String
  recDesc : String
  row : TransferRow
deriving DecidableEq, Repr

/-- `UPDATE accounts SET balance = balance - $1, available = available - $1
WHERE id=$2` on the sender row. -/
def debitAcc (sid2 : Nat) (amt : Int) (a : Account) : Account :=
  if a.id = sid2 then
    { a with balance := a.balance - amt, available := a.available - amt }
  else a

/-- The mirror `+ $1` update on the internal recipient row. -/
def creditAcc (rid2 : Nat) (amt : Int) (a : Account) : Account :=
  if a.id = rid2 then
    { a with balance := a.balance + amt, available := a.available + amt }
  else a

/-- Write phase of the config.js atomic unit: the sender debit, the
recipient credit when internal, the debit (and, if internal, credit)
transaction inserts, and the transfer insert. -/
def applyTransfer (db : DB) (d : OkData) : DB :=
  let accounts1 := db.accounts.map (debitAcc d.sender.id d.amt)
  let accounts2 :=
    match d.recipient with
    | some r => accounts1.map (creditAcc r.id d.amt)
    | none => accounts1
  let txs1 := db.transactions ++ [⟨d.sender.id, TxType.debit, d.amt, d.senderDesc⟩]
  let txs2 :=
    match d.recipient with
    | some r => txs1 ++ [⟨r.id, TxType.credit, d.amt, d.recDesc⟩]
    | none => txs1
  { db with accounts := accounts2, transactions := txs2,
            transfers := db.transfers ++ [d.row] }

/-- Validation phase of POST /api/transfers in config.js (lines 400–541):
all checks and `SELECT ... FOR UPDATE` reads precede the first `UPDATE`.
`userId` is `req.user.sub` from the auth token.  Note: config.js has no
self-transfer check and no external-details requirement. -/
def validateTransfer (db : DB) (req : Req) (userId : Nat) (tok : String)
    (now claimDays : Int) : Except (Nat × String) OkData :=
  if req.sender_account_id = none ∨ req.amount = none then
    Except.error (400, "Missing required fields: sender_account_id and amount")
  else
    let amt := req.amount.getD 0
    if amt ≤ 0 then Except.error (400, "Invalid amount")
    else
      match findAccount db.accounts (req.sender_account_id.getD 0) with
      | none => Except.error (404, "Sender account not found")
      | some sender =>
        if sender.user_id ≠ userId then
          Except.error (403, "Forbidden: sender account does not belong to authenticated user")
        else if sender.available < amt then
          Except.error (400, "Insufficient funds")
        else
          let reLower := reLowerOf req
          match resolveRecipient db req.recipient_account_id reLower with
          | Except.error e => Except.error e
          | Except.ok recipient =>
            let isInternal := recipient.isSome
            let status := if isInternal then "completed" else "pending"
            let pending := ¬ isInternal ∧ status = "pending"
            let claimToken : Option String := if pending then some tok else none
            let claimExpires : Option Int :=
              if pending then some (now + claimDays * 86400000) else none
            let senderDesc := jsOr req.description
              (match recipient with
               | some r => "Transfer to " ++ (if r.type = "" then "account" else r.type)
               | none => "External transfer to " ++
                   jsOr req.recipient_name (jsOr req.recipient_email "recipient"))
            let recDesc := jsOr req.description
              ("Received from " ++ (if sender.type = "" then "account" else sender.type))
            Except.ok
              { sender := sender
                recipient := recipient
                amt := amt
                senderDesc := senderDesc
                recDesc := recDesc
                row :=
                  { sender_account_id := sender.id
                    recipient_account_id := recipient.map (fun r => r.id)
                    recipient_email := reLower
                    recipient_name := jsOpt req.recipient_name
                    amount := amt
                    currency := "USD"
                    method := jsOr req.method "standard"
                    status := status
                    bank_name := jsOpt req.bank_name
                    account_number := jsOpt req.account_number
                    routing_number := jsOpt req.routing_number
                    btc_address := jsOpt req.btc_address
                    description := jsOpt req.description
                    claim_token := claimToken
                    claim_expires := claimExpires } }

/-- POST /api/transfers of config.js: validate then roll back or commit. -/
def transfer (db : DB) (req : Req) (userId : Nat) (tok : String)
    (now claimDays : Int) : Resp × DB :=
  match validateTransfer db req userId tok now claimDays with
  | Except.error e => (Resp.err e.1 e.2, db)
  | Except.ok d => (Resp.created d.row, applyTransfer db d)

end CFG

namespace SRV

/-- A row of the server.js SQLite `transfers` table (keyed by `reference`). -/
structure TransferRow where
  reference : String
  email : Option String
  amount : Int
  type : String
  from_account : Option String
  to_account : Option String
  status : String
  dateISO : String
  source : String
  createdAt : String
  updatedAt : String
deriving DecidableEq, Repr

/-- Body of POST /api/transfers in server.js. -/
structure Body where
  reference : Option String
  email : Option String
  amount : Option Int
  type : Option String
  network : Option String
  from_acct : Option String
  to_acct : Option String
  status : Option String
  dateISO : Option String
  source : Option String
deriving DecidableEq, Repr

/-- A row of the server.js `idempotency` table.  `request_hash` is
`sha256(JSON.stringify(body))`; sha256 of the serialised body is modelled by
the body itself (two bodies collide exactly when they are equal). -/
structure IdemRow where
  key : String
  request_hash : Body
  response : TransferRow
deriving DecidableEq, Repr

/-- server.js persistent state: the two SQLite tables plus the read-only
users.json demo store (email, totalBalance), which no transfer touches. -/
structure DB where
  transfers : List TransferRow
  idem : List IdemRow
  users : List (String × Int)
deriving DecidableEq, Repr

/-- server.js response: `created` covers every `res.status(201).json(...)`,
including the idempotent replay (the middleware also replies 201 with the
stored object); `err` covers 400 and 409. -/
inductive Resp where
  | err : Nat → String → Resp
  | created : TransferRow → Resp
deriving DecidableEq, Repr

/-- The `item` object the handler builds from the body (all the
`body.x || default` fallbacks of lines 333–347). -/
def buildItem (body : Body) (nowISO : String) : TransferRow :=
  { reference := body.reference.getD ""
    email := jsOpt body.email
    amount := body.amount.getD 0
    type := jsOr body.type (jsOr body.network "Transfer")
    from_account := jsOpt body.from_acct
    to_account := jsOpt body.to_acct
    status := jsOr body.status "Pending"
    dateISO := jsOr body.dateISO nowISO
    source := jsOr body.source "transfer"
    createdAt := nowISO
    updatedAt := nowISO }

/-- `INSERT ... ON CONFLICT(reference) DO UPDATE SET ...`: on conflict every
column in the SET list is overwritten from the new item; `createdAt` is not
in the SET list and is preserved. -/
def upsert (l : List TransferRow) (item : TransferRow) : List TransferRow :=
  if l.any (fun r => r.reference = item.reference) then
    l.map (fun r =>
      if r.reference = item.reference then { item with createdAt := r.createdAt } else r)
  else l ++ [item]

/-- The POST /api/transfers handler of server.js (lines 331–370): the only
validation is that `body.reference` is truthy; then the item is upserted. -/
def handleTransfer (db : DB) (body : Body) (nowISO : String) : Resp × DB :=
  if ¬ jsTruthy body.reference then (Resp.err 400 "reference is required", db)
  else
    let item := buildItem body nowISO
    (Resp.created item, { db with transfers := upsert db.transfers item })

/-- POST /api/transfers behind `idempotencyMiddleware` (lines 199–218):
with no key, straight to the handler; with a stored key, replay the stored
response on an equal body hash and 409 on a different one; with a fresh key,
run the handler and store `(key, hash, item)` only when it replied 201. -/
def postTransfers (db : DB) (key : Option String) (body : Body)
    (nowISO : String) : Resp × DB :=
  match key with
  | none => handleTransfer db body nowISO
  | some k =>
    match db.idem.find? (fun r => r.key = k) with
    | some r =>
      if r.request_hash = body then (Resp.created r.response, db)
      else (Resp.err 409 "Idempotency-Key re-use with different payload", db)
    | none =>
      match handleTransfer db body nowISO with
      | (Resp.created item, db1) =>
        (Resp.created item, { db1 with idem := db1.idem ++ [⟨k, body, item⟩] })
      | other => other

end SRV

namespace CONC

/-- One in-flight transfer against a shared sender balance: its amount, the
balance value its SELECT captured (if it has run), and whether it finished. -/
structure Proc where
  amt : Int
  readVal : Option Int
  done : Bool
deriving DecidableEq, Repr

/-- Shared state for two concurrent transfers from one sender account:
the account balance, both processes, and the row lock (`some i` when
process `i` holds `SELECT ... FOR UPDATE` on the row). -/
structure CState where
  balance : Int
  p0 : Proc
  p1 : Proc
  lock : Option Bool
deriving DecidableEq, Repr

/-- Both transfers pending, lock free. -/
def initState (b a0 a1 : Int) : CState :=
  ⟨b, ⟨a0, none, false⟩, ⟨a1, none, false⟩, none⟩

/-- Select process `i`. -/
def getProc (s : CState) (i : Bool) : Proc :=
  match i with
  | false => s.p0
  | true => s.p1

/-- Replace process `i`. -/
def setProc (s : CState) (i : Bool) (p : Proc) : CState :=
  match i with
  | false => { s with p0 := p }
  | true => { s with p1 := p }

/-- One scheduled step of the part_000 protocol (plain `SELECT` with no
lock, then a funds check against the stale read and the debit `UPDATE`):
first step captures the balance, second step checks the captured value and,
if sufficient, atomically debits the current balance. -/
def stepUnlocked (s : CState) (i : Bool) : CState :=
  let p := getProc s i
  if p.done then s
  else
    match p.readVal with
    | none => setProc s i { p with readVal := some s.balance }
    | some v =>
      let s1 := setProc s i { p with done := true }
      if v < p.amt then s1 else { s1 with balance := s1.balance - p.amt }

/-- One scheduled step of the config.js protocol (`SELECT ... FOR UPDATE`):
the read acquires the row lock (a process scheduled while the other holds
the lock just waits), and the check-and-debit step releases it at
COMMIT/ROLLBACK. -/
def stepLocked (s : CState) (i : Bool) : CState :=
  let p := getProc s i
  if p.done then s
  else
    match p.readVal with
    | none =>
      match s.lock with
      | none => { setProc s i { p with readVal := some s.balance } with lock := some i }
      | some j =>
        if j = i then setProc s i { p with readVal := some s.balance } else s
    | some v =>
      let s1 := { setProc s i { p with done := true } with lock := none }
      if v < p.amt then s1 else { s1 with balance := s1.balance - p.amt }

/-- Run a schedule (each element names the process to step) without locks. -/
def runUnlocked : List Bool → CState → CState
  | [], s => s
  | i :: rest, s => runUnlocked rest (stepUnlocked s i)

/-- Run a schedule with row locks. -/
def runLocked : List Bool → CState → CState
  | [], s => s
  | i :: rest, s => runLocked rest (stepLocked s i)

/-- Invariant of the locked protocol: the balance is non-negative, and a
process that has read but not finished holds the lock and its read value is
the current balance. -/
def LockInv (s : CState) : Prop :=
  0 ≤ s.balance ∧
  (¬ s.p0.done = true → ∀ v, s.p0.readVal = some v → s.lock = some false ∧ v = s.balance) ∧
  (¬ s.p1.done = true → ∀ v, s.p1.readVal = some v → s.lock = some true ∧ v = s.balance)

end CONC

namespace RB

/-- A transaction-log entry as the running-balance walk sees it. -/
structure Entry where
  type : TxType
  amount : Int
deriving DecidableEq, Repr

/-- Forward effect of a logged entry: a credit row was logged when the
balance grew by `amount`, a debit row when it shrank by `amount`. -/
def applyFwd (b : Int) (e : Entry) : Int :=
  match e.type with
  | TxType.credit => b + e.amount
  | TxType.debit => b - e.amount

/-- One step of the reverse walk of GET /api/transactions (part_000 lines
923–931): over the DESC-ordered list, each credit subtracts its amount and
each debit adds it. -/
def applyBwd (b : Int) (e : Entry) : Int :=
  match e.type with
  | TxType.credit => b - e.amount
  | TxType.debit => b + e.amount

/-- Historical balances in chronological order: the balance before any
entry, then the balance after each successive entry. -/
def balances (b0 : Int) (l : List Entry) : List Int :=
  l.scanl applyFwd b0

/-- The current balance, i.e. the balance after the whole chronological log. -/
def currentBalance (b0 : Int) (l : List Entry) : Int :=
  l.foldl applyFwd b0

/-- The values produced by walking a DESC-ordered list from the current
balance, starting value included. -/
def walkBack (cur : Int) (descList : List Entry) : List Int :=
  descList.scanl applyBwd cur

end RB

section Fixtures

/-- part_000 fixture: sender with checking 100.00 and a distinctive
`totalbalance`. -/
def pgAlice : PG.UserRow :=
  ⟨1, "alice@bank.com", "alices", "Alice Smith", 10000, 0, 9900⟩

/-- part_000 fixture: internal recipient with checking 10.00. -/
def pgBob : PG.UserRow :=
  ⟨2, "bob@bank.com", "bobs", "Bob Jones", 1000, 0, 5500⟩

/-- part_000 fixture database for the internal-transfer scenario. -/
def pgDb : PG.DB := ⟨[pgAlice, pgBob], [], []⟩

/-- part_000 fixture: internal transfer of 40.00 from Alice to Bob. -/
def pgReq40 : PG.Req :=
  { sender_email := some "alice@bank.com"
    recipient_email := some "bob@bank.com"
    recipient_name := none
    amount := some 4000
    sender_account_type := AccType.checking
    recipient_account_type := AccType.checking
    account_number := none, routing_number := none, btc_address := none
    bank_name := none, description := none, method := none }

/-- part_000 fixture: sender with only 10.00 checking. -/
def pgPoor : PG.UserRow :=
  ⟨1, "alice@bank.com", "alices", "Alice Smith", 1000, 0, 1000⟩

/-- part_000 fixture database for the insufficient-funds scenario. -/
def pgDbPoor : PG.DB := ⟨[pgPoor, pgBob], [], []⟩

/-- part_000 fixture: attempt to transfer 50.00 from a 10.00 balance. -/
def pgReq50 : PG.Req := { pgReq40 with amount := some 5000 }

/-- part_000 fixture: external BTC transfer of 7.00 (no internal match,
`method: 'btc'`). -/
def pgReqBtc : PG.Req :=
  { sender_email := some "alice@bank.com"
    recipient_email := none
    recipient_name := none
    amount := some 700
    sender_account_type := AccType.checking
    recipient_account_type := AccType.checking
    account_number := none, routing_number := none
    btc_address := some "bc1qexampleaddr"
    bank_name := none, description := none, method := some "btc" }

/-- part_000 fixture: external bank transfer of 7.00 (account+routing,
default method). -/
def pgReqExt : PG.Req :=
  { pgReqBtc with btc_address := none, method := none
                  account_number := some "12345678", routing_number := some "021000021" }

/-- config.js fixture database: two users each with one checking account. -/
def cfgDb : CFG.DB :=
  ⟨[⟨1, "alice@bank.com"⟩, ⟨2, "bob@bank.com"⟩],
   [⟨10, 1, 10000, 10000, "checking"⟩, ⟨20, 2, 1000, 1000, "checking"⟩],
   [], []⟩

/-- config.js fixture: internal transfer of 40.00 from account 10 to 20. -/
def cfgReq40 : CFG.Req :=
  { sender_account_id := some 10
    recipient_account_id := some 20
    recipient_email := none, recipient_name := none
    amount := some 4000
    method := none, description := none, bank_name := none
    account_number := none, routing_number := none, btc_address := none }

/-- config.js fixture database with a 10.00 balance. -/
def cfgDbPoor : CFG.DB :=
  ⟨[⟨1, "alice@bank.com"⟩], [⟨10, 1, 1000, 1000, "checking"⟩], [], []⟩

/-- config.js fixture: attempt to transfer 50.00 from a 10.00 balance. -/
def cfgReq50 : CFG.Req := { cfgReq40 with amount := some 5000 }

/-- config.js fixture: an account whose `available` (10.00) exceeds its
`balance` (5.00); both are non-negative. -/
def cfgDbSkew : CFG.DB :=
  ⟨[⟨1, "alice@bank.com"⟩], [⟨10, 1, 500, 1000, "checking"⟩], [], []⟩

/-- config.js fixture: external transfer of 7.00 with no recipient fields. -/
def cfgReqExt : CFG.Req :=
  { sender_account_id := some 10
    recipient_account_id := none
    recipient_email := none, recipient_name := none
    amount := some 700
    method := none, description := none, bank_name := none
    account_number := none, routing_number := none, btc_address := none }

/-- config.js fixture: transfer of 5.00 from account 10 to itself. -/
def cfgReqSelf : CFG.Req :=
  { cfgReqExt with recipient_account_id := some 10, amount := some 500 }

/-- part_000 fixture: Alice attempting a 40.00 transfer to her own email. -/
def pgReqSelf : PG.Req := { pgReq40 with recipient_email := some "alice@bank.com" }

/-- server.js fixture: a request body creating reference r-1 for 25.00. -/
def srvBody1 : SRV.Body :=
  { reference := some "r-1", email := some "alice@bank.com"
    amount := some 2500, type := none, network := none
    from_acct := some "checking", to_acct := some "external"
    status := none, dateISO := none, source := none }

/-- server.js fixture: a different body reusing reference r-1. -/
def srvBody2 : SRV.Body := { srvBody1 with amount := some 9999 }

/-- server.js fixture: a body with no amount at all. -/
def srvBodyNoAmt : SRV.Body := { srvBody1 with reference := some "r-2", amount := none }

/-- server.js fixture: a body with a negative amount. -/
def srvBodyNeg : SRV.Body := { srvBody1 with reference := some "r-3", amount := some (-400) }

/-- server.js fixture: the item srvBody1 produces at time t0. -/
def srvItem1 : SRV.TransferRow := SRV.buildItem srvBody1 "2026-01-01T00:00:00Z"

/-- server.js fixture: database holding the stored idempotency record for
key k-1 (hash of srvBody1, response srvItem1) and the created row. -/
def srvDb1 : SRV.DB :=
  ⟨[srvItem1], [⟨"k-1", srvBody1, srvItem1⟩], [("alice@bank.com", 12500)]⟩

/-- server.js fixture: empty database with one users.json entry. -/
def srvDb0 : SRV.DB := ⟨[], [], [("alice@bank.com", 12500)]⟩

end Fixtures

section ListKit

/-- `find?` commutes with mapping a function that does not change the
predicate's verdict. -/
theorem find?_map_pres {α : Type} (g : α → α) (p : α → Bool)
    (hp : ∀ a, p (g a) = p a) (l : List α) :
    (l.map g).find? p = (l.find? p).map g := by
  induction l with
  | nil => rfl
  | cons a t ih =>
    simp only [List.map_cons, List.find?]
    rw [hp a]
    cases h : p a <;> simp [ih]

/-- In a list whose keys are distinct, `find?` by key returns the member
carrying that key. -/
theorem find?_key_of_mem_nodup {α : Type} (key : α → Nat) (l : List α)
    (hnd : (l.map key).Nodup) (a : α) (ha : a ∈ l) (i : Nat) (hk : key a = i) :
    l.find? (fun x => key x = i) = some a := by
  induction l with
  | nil => cases ha
  | cons b t ih =>
    simp only [List.map_cons, List.nodup_cons] at hnd
    rcases List.mem_cons.mp ha with h | h
    · subst h
      simp only [List.find?, hk]
      simp
    · have hbi : ¬ (key b = i) := by
        intro hbi
        apply hnd.1
        have hm : key a ∈ t.map key := List.mem_map.mpr ⟨a, h, rfl⟩
        rw [hk, ← hbi] at hm
        exact hm
      simp only [List.find?]
      rw [decide_eq_false hbi]
      exact ih hnd.2 h

end ListKit

section ClaimC1

/-- C1: every failing POST /api/transfers (validation failure such as
insufficient funds, or any error surfaced before COMMIT) leaves the
accounts, transactions and transfers tables unchanged, in both the
part_000 and the config.js variant: an error response comes with the
original database state. -/
theorem c1_transfer_failure_is_atomic :
    (∀ (db : PG.DB) (req : PG.Req) (requester tok : String) (now days : Int)
       (e : Nat) (m : String),
       (PG.transfer db req requester tok now days).1 = PG.Resp.err e m →
       (PG.transfer db req requester tok now days).2 = db) ∧
    (∀ (db : CFG.DB) (req : CFG.Req) (uid : Nat) (tok : String) (now days : Int)
       (e : Nat) (m : String),
       (CFG.transfer db req uid tok now days).1 = CFG.Resp.err e m →
       (CFG.transfer db req uid tok now days).2 = db) := by
  constructor
  · intro db req requester tok now days e m h
    cases hv : PG.validateTransfer db req requester tok now days with
    | error e2 =>
      unfold PG.transfer
      rw [hv]
    | ok d =>
      unfold PG.transfer at h
      rw [hv] at h
      have h2 : PG.Resp.created d.row = PG.Resp.err e m := h
      exact PG.Resp.noConfusion h2
  · intro db req uid tok now days e m h
    cases hv : CFG.validateTransfer db req uid tok now days with
    | error e2 =>
      unfold CFG.transfer
      rw [hv]
    | ok d =>
      unfold CFG.transfer at h
      rw [hv] at h
      have h2 : CFG.Resp.created d.row = CFG.Resp.err e m := h
      exact CFG.Resp.noConfusion h2

/-- C1 witness: a sender with 10.00 attempting to transfer 50.00 fails with
the insufficient-funds error and mutates nothing, in both variants. -/
theorem c1_transfer_failure_is_atomic_witness :
    (PG.transfer pgDbPoor pgReq50 "alice@bank.com" "tok" 1000 7).1
        = PG.Resp.err 400 "Insufficient funds" ∧
    (PG.transfer pgDbPoor pgReq50 "alice@bank.com" "tok" 1000 7).2 = pgDbPoor ∧
    (CFG.transfer cfgDbPoor cfgReq50 1 "tok" 1000 7).1
        = CFG.Resp.err 400 "Insufficient funds" ∧
    (CFG.transfer cfgDbPoor cfgReq50 1 "tok" 1000 7).2 = cfgDbPoor :=
  ⟨by decide,
   c1_transfer_failure_is_atomic.1 pgDbPoor pgReq50 "alice@bank.com" "tok" 1000 7
     400 "Insufficient funds" (by decide),
   by decide,
   c1_transfer_failure_is_atomic.2 cfgDbPoor cfgReq50 1 "tok" 1000 7
     400 "Insufficient funds" (by decide)⟩

end ClaimC1

section ClaimC4

/-- C4: under the server.js idempotency middleware, repeating a stored key
with the same body hash returns the stored response verbatim as a 201
(the only status ever stored, per the third conjunct) without touching any
table; repeating it with a different body hash yields the 409 conflict and
creates nothing; and a fresh key runs the handler and stores the 201
response it produced. -/
theorem c4_idempotency_key_semantics :
    (∀ (db : SRV.DB) (k : String) (body : SRV.Body) (nowISO : String) (r : SRV.IdemRow),
       db.idem.find? (fun x => x.key = k) = some r →
       r.request_hash = body →
       SRV.postTransfers db (some k) body nowISO = (SRV.Resp.created r.response, db)) ∧
    (∀ (db : SRV.DB) (k : String) (body : SRV.Body) (nowISO : String) (r : SRV.IdemRow),
       db.idem.find? (fun x => x.key = k) = some r →
       r.request_hash ≠ body →
       SRV.postTransfers db (some k) body nowISO =
         (SRV.Resp.err 409 "Idempotency-Key re-use with different payload", db)) ∧
    (∀ (db : SRV.DB) (k : String) (body : SRV.Body) (nowISO : String),
       db.idem.find? (fun x => x.key = k) = none →
       jsTruthy body.reference = true →
       SRV.postTransfers db (some k) body nowISO =
         (SRV.Resp.created (SRV.buildItem body nowISO),
          { transfers := SRV.upsert db.transfers (SRV.buildItem body nowISO),
            idem := db.idem ++ [⟨k, body, SRV.buildItem body nowISO⟩],
            users := db.users })) := by
  refine ⟨?_, ?_, ?_⟩
  · intro db k body nowISO r hf hh
    show (match db.idem.find? (fun r => r.key = k) with
          | some r =>
            if r.request_hash = body then (SRV.Resp.created r.response, db)
            else (SRV.Resp.err 409 "Idempotency-Key re-use with different payload", db)
          | none =>
            match SRV.handleTransfer db body nowISO with
            | (SRV.Resp.created item, db1) =>
              (SRV.Resp.created item, { db1 with idem := db1.idem ++ [⟨k, body, item⟩] })
            | other => other) = (SRV.Resp.created r.response, db)
    rw [hf]
    simp [hh]
  · intro db k body nowISO r hf hh
    show (match db.idem.find? (fun r => r.key = k) with
          | some r =>
            if r.request_hash = body then (SRV.Resp.created r.response, db)
            else (SRV.Resp.err 409 "Idempotency-Key re-use with different payload", db)
          | none =>
            match SRV.handleTransfer db body nowISO with
            | (SRV.Resp.created item, db1) =>
              (SRV.Resp.created item, { db1 with idem := db1.idem ++ [⟨k, body, item⟩] })
            | other => other)
        = (SRV.Resp.err 409 "Idempotency-Key re-use with different payload", db)
    rw [hf]
    simp [hh]
  · intro db k body nowISO hf ht
    show (match db.idem.find? (fun r => r.key = k) with
          | some r =>
            if r.request_hash = body then (SRV.Resp.created r.response, db)
            else (SRV.Resp.err 409 "Idempotency-Key re-use with different payload", db)
          | none =>
            match SRV.handleTransfer db body nowISO with
            | (SRV.Resp.created item, db1) =>
              (SRV.Resp.created item, { db1 with idem := db1.idem ++ [⟨k, body, item⟩] })
            | other => other)
        = (SRV.Resp.created (SRV.buildItem body nowISO),
           { transfers := SRV.upsert db.transfers (SRV.buildItem body nowISO),
             idem := db.idem ++ [⟨k, body, SRV.buildItem body nowISO⟩],
             users := db.users })
    rw [hf]
    unfold SRV.handleTransfer
    simp [ht]

/-- C4 witness: with the record (k-1, hash of srvBody1, srvItem1) stored,
replaying srvBody1 under k-1 returns the stored srvItem1 and changes
nothing; sending the different srvBody2 under k-1 yields the 409 conflict
and changes nothing. -/
theorem c4_idempotency_key_semantics_witness :
    (srvDb1.idem.find? (fun x => x.key = "k-1") = some ⟨"k-1", srvBody1, srvItem1⟩) ∧
    SRV.postTransfers srvDb1 (some "k-1") srvBody1 "2026-02-02T00:00:00Z"
        = (SRV.Resp.created srvItem1, srvDb1) ∧
    (srvBody1 ≠ srvBody2) ∧
    SRV.postTransfers srvDb1 (some "k-1") srvBody2 "2026-02-02T00:00:00Z"
        = (SRV.Resp.err 409 "Idempotency-Key re-use with different payload", srvDb1) :=
  ⟨by decide,
   c4_idempotency_key_semantics.1 srvDb1 "k-1" srvBody1 "2026-02-02T00:00:00Z"
     ⟨"k-1", srvBody1, srvItem1⟩ (by decide) (by decide),
   by decide,
   c4_idempotency_key_semantics.2.1 srvDb1 "k-1" srvBody2 "2026-02-02T00:00:00Z"
     ⟨"k-1", srvBody1, srvItem1⟩ (by decide) (by decide)⟩

end ClaimC4

section ClaimC10

/-- C10: the server.js transfer handler validates only that `reference` is
present: any such body (amount missing, zero or negative included) yields a
201 whose stored amount is `Number(body.amount || 0)` and leaves the
users.json balances untouched; an existing reference is overwritten in
place, keeping the list length and the old row's `createdAt`, and a fresh
reference is appended. -/
theorem c10_sqlite_transfer_upsert :
    (∀ (db : SRV.DB) (body : SRV.Body) (nowISO : String),
       jsTruthy body.reference = true →
       SRV.handleTransfer db body nowISO =
         (SRV.Resp.created (SRV.buildItem body nowISO),
          { db with transfers := SRV.upsert db.transfers (SRV.buildItem body nowISO) }) ∧
       (SRV.buildItem body nowISO).amount = body.amount.getD 0 ∧
       (SRV.handleTransfer db body nowISO).2.users = db.users) ∧
    (∀ (l : List SRV.TransferRow) (item old : SRV.TransferRow),
       l.find? (fun r => r.reference = item.reference) = some old →
       (SRV.upsert l item).find? (fun r => r.reference = item.reference)
           = some { item with createdAt := old.createdAt } ∧
       (SRV.upsert l item).length = l.length) ∧
    (∀ (l : List SRV.TransferRow) (item : SRV.TransferRow),
       l.find? (fun r => r.reference = item.reference) = none →
       SRV.upsert l item = l ++ [item]) := by
  refine ⟨?_, ?_, ?_⟩
  · intro db body nowISO ht
    refine ⟨?_, rfl, ?_⟩
    · unfold SRV.handleTransfer
      simp [ht]
    · unfold SRV.handleTransfer
      simp [ht]
  · intro l item old hf
    have hmem : old ∈ l := List.mem_of_find?_eq_some hf
    have hp : (old.reference = item.reference) := by
      have := List.find?_some hf
      exact of_decide_eq_true this
    have hany : l.any (fun r => r.reference = item.reference) = true := by
      rw [List.any_eq_true]
      exact ⟨old, hmem, by simp [hp]⟩
    constructor
    · unfold SRV.upsert
      rw [if_pos hany]
      rw [find?_map_pres
        (fun r => if r.reference = item.reference then { item with createdAt := r.createdAt } else r)
        (fun r => r.reference = item.reference) ?_ l]
      · rw [hf]
        simp [hp]
      · intro a
        by_cases h : a.reference = item.reference <;> simp [h]
    · unfold SRV.upsert
      rw [if_pos hany]
      simp
  · intro l item hf
    have hany : l.any (fun r => r.reference = item.reference) = false := by
      rw [List.any_eq_false]
      intro x hx
      have := List.find?_eq_none.mp hf x hx
      simpa using this
    unfold SRV.upsert
    rw [if_neg]
    simp [hany]

/-- C10 witness: a body with no amount and reference r-2 succeeds with 201
and stored amount 0 against the empty database; re-posting reference r-1
with a different amount overwrites the stored row while its createdAt stays
the original 2026-01-01 timestamp and the table keeps one row. -/
theorem c10_sqlite_transfer_upsert_witness :
    (jsTruthy srvBodyNoAmt.reference = true) ∧
    SRV.handleTransfer srvDb0 srvBodyNoAmt "2026-02-02T00:00:00Z" =
      (SRV.Resp.created (SRV.buildItem srvBodyNoAmt "2026-02-02T00:00:00Z"),
       { srvDb0 with transfers :=
           SRV.upsert srvDb0.transfers (SRV.buildItem srvBodyNoAmt "2026-02-02T00:00:00Z") }) ∧
    (SRV.buildItem srvBodyNoAmt "2026-02-02T00:00:00Z").amount = 0 ∧
    ([srvItem1].find? (fun r =>
        r.reference = (SRV.buildItem srvBody2 "2026-02-02T00:00:00Z").reference)
      = some srvItem1) ∧
    (SRV.upsert [srvItem1] (SRV.buildItem srvBody2 "2026-02-02T00:00:00Z")).find?
        (fun r => r.reference = (SRV.buildItem srvBody2 "2026-02-02T00:00:00Z").reference)
      = some { SRV.buildItem srvBody2 "2026-02-02T00:00:00Z" with
                 createdAt := srvItem1.createdAt } :=
  ⟨by decide,
   ((c10_sqlite_transfer_upsert.1 srvDb0 srvBodyNoAmt "2026-02-02T00:00:00Z" (by decide)).1),
   by decide,
   by decide,
   (c10_sqlite_transfer_upsert.2.1 [srvItem1]
      (SRV.buildItem srvBody2 "2026-02-02T00:00:00Z") srvItem1 (by decide)).1⟩

end ClaimC10

section ClaimC8

/-- Reversing one log entry (credit subtracts, debit adds) undoes applying
it forward. -/
theorem rb_applyBwd_applyFwd (b : Int) (e : RB.Entry) :
    RB.applyBwd (RB.applyFwd b e) e = b := by
  cases e with
  | mk t a => cases t <;> simp [RB.applyFwd, RB.applyBwd]

/-- scanl over a list extended on the right. -/
theorem scanl_append_last {α β : Type} (f : β → α → β) (b : β) (l : List α) (x : α) :
    (l ++ [x]).scanl f b = l.scanl f b ++ [f (l.foldl f b) x] := by
  induction l generalizing b with
  | nil => simp [List.scanl]
  | cons a t ih => simp [List.scanl, ih]

/-- Folding the reverse walk over the reversed log undoes the forward fold. -/
theorem rb_foldl_bwd_reverse (l : List RB.Entry) (b : Int) :
    l.reverse.foldl RB.applyBwd (l.foldl RB.applyFwd b) = b := by
  induction l generalizing b with
  | nil => rfl
  | cons e t ih =>
    simp only [List.reverse_cons, List.foldl_append, List.foldl_cons, List.foldl_nil]
    rw [ih (RB.applyFwd b e)]
    exact rb_applyBwd_applyFwd b e

/-- C8: walking the DESC-ordered transaction list from the current balance
and applying the reverse of each stored direction (credit subtracts, debit
adds) reproduces exactly the historical balances: the walk values are the
chronological balance history read backwards, so after each DESC entry the
walk value is the balance the account held just before that entry, i.e.
just after the next-older one. -/
theorem c8_running_balance_reconstruction :
    ∀ (l : List RB.Entry) (b0 : Int),
      RB.walkBack (RB.currentBalance b0 l) l.reverse = (RB.balances b0 l).reverse := by
  intro l
  induction l with
  | nil => intro b0; rfl
  | cons e t ih =>
    intro b0
    unfold RB.walkBack RB.currentBalance RB.balances at ih ⊢
    simp only [List.reverse_cons, List.foldl_cons]
    rw [scanl_append_last]
    rw [ih (RB.applyFwd b0 e)]
    rw [rb_foldl_bwd_reverse t (RB.applyFwd b0 e)]
    rw [rb_applyBwd_applyFwd]
    simp [List.scanl]

end ClaimC8

section ClaimC7

/-- The locked-protocol invariant holds in the initial state. -/
theorem conc_lockinv_init (b a0 a1 : Int) (hb : 0 ≤ b) :
    CONC.LockInv (CONC.initState b a0 a1) := by
  refine ⟨hb, ?_, ?_⟩ <;> intro _ v hv <;> exact Option.noConfusion hv

/-- Every step of the locked protocol preserves the invariant. -/
theorem conc_lockinv_step (s : CONC.CState) (i : Bool) (h : CONC.LockInv s) :
    CONC.LockInv (CONC.stepLocked s i) := by
  obtain ⟨hb, h0, h1⟩ := h
  cases i
  · cases hd : s.p0.done with
    | true =>
      have hstep : CONC.stepLocked s false = s := by
        simp [CONC.stepLocked, CONC.getProc, hd]
      rw [hstep]
      exact ⟨hb, h0, h1⟩
    | false =>
      cases hr : s.p0.readVal with
      | none =>
        cases hl : s.lock with
        | none =>
          have hstep : CONC.stepLocked s false =
              ⟨s.balance, { s.p0 with readVal := some s.balance }, s.p1, some false⟩ := by
            simp [CONC.stepLocked, CONC.getProc, CONC.setProc, hd, hr, hl]
          rw [hstep]
          refine ⟨hb, ?_, ?_⟩
          · intro _ v hv
            cases hv
            exact ⟨rfl, rfl⟩
          · intro hd1 v hv
            have hcontra := (h1 hd1 v hv).1
            rw [hl] at hcontra
            exact Option.noConfusion hcontra
        | some j =>
          cases j with
          | false =>
            have hstep : CONC.stepLocked s false =
                ⟨s.balance, { s.p0 with readVal := some s.balance }, s.p1, s.lock⟩ := by
              simp [CONC.stepLocked, CONC.getProc, CONC.setProc, hd, hr, hl]
            rw [hstep]
            refine ⟨hb, ?_, ?_⟩
            · intro _ v hv
              cases hv
              exact ⟨hl, rfl⟩
            · intro hd1 v hv
              have hcontra := (h1 hd1 v hv).1
              rw [hl] at hcontra
              exact absurd (Option.some.inj hcontra) (by simp)
          | true =>
            have hstep : CONC.stepLocked s false = s := by
              simp [CONC.stepLocked, CONC.getProc, CONC.setProc, hd, hr, hl]
            rw [hstep]
            exact ⟨hb, h0, h1⟩
      | some v =>
        have hd' : ¬ s.p0.done = true := by simp [hd]
        obtain ⟨hlock, hveq⟩ := h0 hd' v hr
        by_cases hlt : v < s.p0.amt
        · have hstep : CONC.stepLocked s false =
              ⟨s.balance, { s.p0 with done := true }, s.p1, none⟩ := by
            simp [CONC.stepLocked, CONC.getProc, CONC.setProc, hd, hr, hlt]
          rw [hstep]
          refine ⟨hb, ?_, ?_⟩
          · intro hd0 _ _
            exact absurd rfl hd0
          · intro hd1 w hw
            have hcontra := (h1 hd1 w hw).1
            rw [hlock] at hcontra
            exact absurd (Option.some.inj hcontra) (by simp)
        · have hstep : CONC.stepLocked s false =
              ⟨s.balance - s.p0.amt, { s.p0 with done := true }, s.p1, none⟩ := by
            simp [CONC.stepLocked, CONC.getProc, CONC.setProc, hd, hr, hlt]
          rw [hstep]
          refine ⟨?_, ?_, ?_⟩
          · show 0 ≤ s.balance - s.p0.amt
            omega
          · intro hd0 _ _
            exact absurd rfl hd0
          · intro hd1 w hw
            have hcontra := (h1 hd1 w hw).1
            rw [hlock] at hcontra
            exact absurd (Option.some.inj hcontra) (by simp)
  · cases hd : s.p1.done with
    | true =>
      have hstep : CONC.stepLocked s true = s := by
        simp [CONC.stepLocked, CONC.getProc, hd]
      rw [hstep]
      exact ⟨hb, h0, h1⟩
    | false =>
      cases hr : s.p1.readVal with
      | none =>
        cases hl : s.lock with
        | none =>
          have hstep : CONC.stepLocked s true =
              ⟨s.balance, s.p0, { s.p1 with readVal := some s.balance }, some true⟩ := by
            simp [CONC.stepLocked, CONC.getProc, CONC.setProc, hd, hr, hl]
          rw [hstep]
          refine ⟨hb, ?_, ?_⟩
          · intro hd0 v hv
            have hcontra := (h0 hd0 v hv).1
            rw [hl] at hcontra
            exact Option.noConfusion hcontra
          · intro _ v hv
            cases hv
            exact ⟨rfl, rfl⟩
        | some j =>
          cases j with
          | false =>
            have hstep : CONC.stepLocked s true = s := by
              simp [CONC.stepLocked, CONC.getProc, CONC.setProc, hd, hr, hl]
            rw [hstep]
            exact ⟨hb, h0, h1⟩
          | true =>
            have hstep : CONC.stepLocked s true =
                ⟨s.balance, s.p0, { s.p1 with readVal := some s.balance }, s.lock⟩ := by
              simp [CONC.stepLocked, CONC.getProc, CONC.setProc, hd, hr, hl]
            rw [hstep]
            refine ⟨hb, ?_, ?_⟩
            · intro hd0 v hv
              have hcontra := (h0 hd0 v hv).1
              rw [hl] at hcontra
              exact absurd (Option.some.inj hcontra) (by simp)
            · intro _ v hv
              cases hv
              exact ⟨hl, rfl⟩
      | some v =>
        have hd' : ¬ s.p1.done = true := by simp [hd]
        obtain ⟨hlock, hveq⟩ := h1 hd' v hr
        by_cases hlt : v < s.p1.amt
        · have hstep : CONC.stepLocked s true =
              ⟨s.balance, s.p0, { s.p1 with done := true }, none⟩ := by
            simp [CONC.stepLocked, CONC.getProc, CONC.setProc, hd, hr, hlt]
          rw [hstep]
          refine ⟨hb, ?_, ?_⟩
          · intro hd0 w hw
            have hcontra := (h0 hd0 w hw).1
            rw [hlock] at hcontra
            exact absurd (Option.some.inj hcontra) (by simp)
          · intro hd1 _ _
            exact absurd rfl hd1
        · have hstep : CONC.stepLocked s true =
              ⟨s.balance - s.p1.amt, s.p0, { s.p1 with done := true }, none⟩ := by
            simp [CONC.stepLocked, CONC.getProc, CONC.setProc, hd, hr, hlt]
          rw [hstep]
          refine ⟨?_, ?_, ?_⟩
          · show 0 ≤ s.balance - s.p1.amt
            omega
          · intro hd0 w hw
            have hcontra := (h0 hd0 w hw).1
            rw [hlock] at hcontra
            exact absurd (Option.some.inj hcontra) (by simp)
          · intro hd1 _ _
            exact absurd rfl hd1

/-- Running any schedule of the locked protocol preserves the invariant. -/
theorem conc_lockinv_run (sched : List Bool) (s : CONC.CState)
    (h : CONC.LockInv s) : CONC.LockInv (CONC.runLocked sched s) := by
  induction sched generalizing s with
  | nil => exact h
  | cons i rest ih => exact ih _ (conc_lockinv_step s i h)

/-- C7 counterexample: part_000 reads the sender with a plain SELECT (no
FOR UPDATE), so its check-then-debit protocol does not serialize: from a
10.00 balance, interleaving two 7.00 transfers (both read, then both debit)
is an interleaving after which the balance is -4.00 < 0, refuting the claim
that a negative balance can never be observed under any interleaving. -/
theorem c7_counterexample_unlocked_overdraft :
    (CONC.initState 1000 700 700).balance = 1000 ∧
    (CONC.runUnlocked [false, true, false, true] (CONC.initState 1000 700 700)).balance
        = -400 ∧
    (CONC.runUnlocked [false, true, false, true] (CONC.initState 1000 700 700)).balance
        < 0 ∧
    (CONC.runUnlocked [false, true, false, true] (CONC.initState 1000 700 700)).p0.done
        = true ∧
    (CONC.runUnlocked [false, true, false, true] (CONC.initState 1000 700 700)).p1.done
        = true :=
  ⟨rfl, by decide, by decide, by decide, by decide⟩

/-- C7 (amended): the config.js variant locks the sender row with
SELECT ... FOR UPDATE for the whole check-and-update, and under that
protocol no interleaving of two concurrent transfers against the same
account can ever exhibit a negative balance; the part_000 variant omits the
lock and does not have this property. -/
theorem c7_locked_transfers_never_overdraw
    (sched : List Bool) (b a0 a1 : Int) (hb : 0 ≤ b) :
    0 ≤ (CONC.runLocked sched (CONC.initState b a0 a1)).balance :=
  (conc_lockinv_run sched (CONC.initState b a0 a1) (conc_lockinv_init b a0 a1 hb)).1

/-- C7 witness: the locked protocol on the very schedule that overdraws the
unlocked one keeps the 10.00 balance non-negative. -/
theorem c7_locked_transfers_never_overdraw_witness :
    (0 : Int) ≤ 1000 ∧
    0 ≤ (CONC.runLocked [false, true, false, true] (CONC.initState 1000 700 700)).balance :=
  ⟨by decide,
   c7_locked_transfers_never_overdraw [false, true, false, true] 1000 700 700 (by decide)⟩

end ClaimC7

section ClaimC9

/-- Mapping an update through a list is invisible to any observation the
update preserves. -/
theorem map_update_invariant {α β : Type} (l : List α) (g : α → α) (f : α → β)
    (hg : ∀ a, f (g a) = f a) : (l.map g).map f = l.map f := by
  rw [List.map_map]
  exact List.map_congr_left (fun a _ => hg a)

/-- Writing a checking/savings column leaves every other user column alone. -/
theorem pg_setCol_erase (u : PG.UserRow) (t : AccType) (v : Int) :
    ({ u.setCol t v with checking := 0, savings := 0 } : PG.UserRow)
      = { u with checking := 0, savings := 0 } := by
  cases t <;> rfl

/-- C9: in the part_000 variant every run of POST /api/transfers — error or
commit, internal or external — changes users only in their checking/savings
columns and only appends to the transactions and transfers tables; in
particular every user's `totalbalance` (the column login and the
running-balance walk read as the authoritative balance) is exactly what it
was before the transfer. -/
theorem c9_transfer_never_touches_totalbalance :
    ∀ (db : PG.DB) (req : PG.Req) (requester tok : String) (now days : Int),
      ((PG.transfer db req requester tok now days).2.users.map
          (fun u => { u with checking := 0, savings := 0 }) =
        db.users.map (fun u => { u with checking := 0, savings := 0 })) ∧
      ((PG.transfer db req requester tok now days).2.users.map
          (fun u => (u.id, u.totalbalance)) =
        db.users.map (fun u => (u.id, u.totalbalance))) ∧
      (∃ t, (PG.transfer db req requester tok now days).2.transactions
          = db.transactions ++ t) ∧
      (∃ t, (PG.transfer db req requester tok now days).2.transfers
          = db.transfers ++ t) := by
  intro db req requester tok now days
  cases hv : PG.validateTransfer db req requester tok now days with
  | error e =>
    unfold PG.transfer
    rw [hv]
    exact ⟨rfl, rfl, ⟨[], by simp⟩, ⟨[], by simp⟩⟩
  | ok d =>
    unfold PG.transfer
    rw [hv]
    have husers : (PG.applyTransfer db d).users.map
        (fun u => ({ u with checking := 0, savings := 0 } : PG.UserRow))
        = db.users.map (fun u => { u with checking := 0, savings := 0 }) := by
      unfold PG.applyTransfer
      cases hrec : d.recipient with
      | none =>
        simp only
        refine map_update_invariant db.users _ _ (fun u => ?_)
        by_cases h : u.id = d.sender.id <;> simp [PG.debitUser, PG.creditUser, h, pg_setCol_erase]
      | some r =>
        simp only
        rw [map_update_invariant _ _ _ (fun u => ?_), map_update_invariant _ _ _ (fun u => ?_)]
        · by_cases h : u.id = d.sender.id <;> simp [PG.debitUser, PG.creditUser, h, pg_setCol_erase]
        · by_cases h : u.id = r.id <;> simp [PG.debitUser, PG.creditUser, h, pg_setCol_erase]
    have hids : (PG.applyTransfer db d).users.map (fun u => (u.id, u.totalbalance))
        = db.users.map (fun u => (u.id, u.totalbalance)) := by
      unfold PG.applyTransfer
      cases hrec : d.recipient with
      | none =>
        simp only
        refine map_update_invariant db.users _ _ (fun u => ?_)
        by_cases h : u.id = d.sender.id <;> cases hc : d.senderType <;>
          simp [PG.debitUser, PG.creditUser, h, PG.UserRow.setCol]
      | some r =>
        simp only
        rw [map_update_invariant _ _ _ (fun u => ?_), map_update_invariant _ _ _ (fun u => ?_)]
        · by_cases h : u.id = d.sender.id <;> cases hc : d.senderType <;>
            simp [PG.debitUser, PG.creditUser, h, PG.UserRow.setCol]
        · by_cases h : u.id = r.id <;> cases hc : d.recipType <;>
            simp [PG.debitUser, PG.creditUser, h, PG.UserRow.setCol]
    refine ⟨husers, hids, ?_, ?_⟩
    · cases hrec : d.recipient with
      | none =>
        exact ⟨[⟨d.sender.email, TxType.debit, d.amt, d.senderDesc⟩],
          by simp [PG.applyTransfer, hrec]⟩
      | some r =>
        exact ⟨[⟨d.sender.email, TxType.debit, d.amt, d.senderDesc⟩,
                ⟨r.email, TxType.credit, d.amt, d.recDesc⟩],
          by simp [PG.applyTransfer, hrec]⟩
    · exact ⟨[d.row], rfl⟩

end ClaimC9

section TransferCharacterizations

/-- Successful internal validation in config.js: with a funded, owned sender
account and an existing recipient account id, validation reaches COMMIT
with status `completed` and no claim token. -/
theorem cfg_validate_internal
    (db : CFG.DB) (req : CFG.Req) (uid : Nat) (tok : String) (now days : Int)
    (sid rid : Nat) (sAcc rAcc : CFG.Account) (amt : Int)
    (hsid : req.sender_account_id = some sid)
    (hrid : req.recipient_account_id = some rid)
    (hamt : req.amount = some amt) (hpos : 0 < amt)
    (hs : CFG.findAccount db.accounts sid = some sAcc)
    (hown : sAcc.user_id = uid)
    (hfunds : amt ≤ sAcc.available)
    (hr : CFG.findAccount db.accounts rid = some rAcc) :
    CFG.validateTransfer db req uid tok now days = Except.ok
      { sender := sAcc
        recipient := some rAcc
        amt := amt
        senderDesc := jsOr req.description
          ("Transfer to " ++ (if rAcc.type = "" then "account" else rAcc.type))
        recDesc := jsOr req.description
          ("Received from " ++ (if sAcc.type = "" then "account" else sAcc.type))
        row := { sender_account_id := sAcc.id
                 recipient_account_id := some rAcc.id
                 recipient_email := CFG.reLowerOf req
                 recipient_name := jsOpt req.recipient_name
                 amount := amt
                 currency := "USD"
                 method := jsOr req.method "standard"
                 status := "completed"
                 bank_name := jsOpt req.bank_name
                 account_number := jsOpt req.account_number
                 routing_number := jsOpt req.routing_number
                 btc_address := jsOpt req.btc_address
                 description := jsOpt req.description
                 claim_token := none
                 claim_expires := none } } := by
  have h1 : ¬ (req.sender_account_id = none ∨ req.amount = none) := by
    simp [hsid, hamt]
  have h2 : ¬ (amt ≤ 0) := by omega
  have h3 : ¬ (sAcc.user_id ≠ uid) := by simp [hown]
  have h4 : ¬ (sAcc.available < amt) := by omega
  simp only [CFG.validateTransfer, hsid, hamt, Option.getD_some, h1, h2, h3, h4, hs,
    CFG.resolveRecipient, hrid, hr, if_true, if_false, ite_true, ite_false,
    Option.isSome_some, not_true, and_false, false_and]
  simp

end TransferCharacterizations

/-- Successful external validation in config.js: with a funded, owned
sender and no internal recipient resolution, validation reaches COMMIT with
status `pending`, a claim token and a `claimDays`-day expiry; config.js
demands no external details at all. -/
theorem cfg_validate_external
    (db : CFG.DB) (req : CFG.Req) (uid : Nat) (tok : String) (now days : Int)
    (sid : Nat) (sAcc : CFG.Account) (amt : Int)
    (hsid : req.sender_account_id = some sid)
    (hamt : req.amount = some amt) (hpos : 0 < amt)
    (hs : CFG.findAccount db.accounts sid = some sAcc)
    (hown : sAcc.user_id = uid)
    (hfunds : amt ≤ sAcc.available)
    (hres : CFG.resolveRecipient db req.recipient_account_id (CFG.reLowerOf req)
        = Except.ok none) :
    CFG.validateTransfer db req uid tok now days = Except.ok
      { sender := sAcc
        recipient := none
        amt := amt
        senderDesc := jsOr req.description
          ("External transfer to " ++
            jsOr req.recipient_name (jsOr req.recipient_email "recipient"))
        recDesc := jsOr req.description
          ("Received from " ++ (if sAcc.type = "" then "account" else sAcc.type))
        row := { sender_account_id := sAcc.id
                 recipient_account_id := none
                 recipient_email := CFG.reLowerOf req
                 recipient_name := jsOpt req.recipient_name
                 amount := amt
                 currency := "USD"
                 method := jsOr req.method "standard"
                 status := "pending"
                 bank_name := jsOpt req.bank_name
                 account_number := jsOpt req.account_number
                 routing_number := jsOpt req.routing_number
                 btc_address := jsOpt req.btc_address
                 description := jsOpt req.description
                 claim_token := some tok
                 claim_expires := some (now + days * 86400000) } } := by
  have h1 : ¬ (req.sender_account_id = none ∨ req.amount = none) := by
    simp [hsid, hamt]
  have h2 : ¬ (amt ≤ 0) := by omega
  have h3 : ¬ (sAcc.user_id ≠ uid) := by simp [hown]
  have h4 : ¬ (sAcc.available < amt) := by omega
  simp only [CFG.validateTransfer, hsid, hamt, Option.getD_some, h1, h2, h3, h4, hs,
    hres, if_true, if_false, ite_true, ite_false, Option.isSome_none, not_false_iff,
    and_true, true_and]
  simp

/-- Inverting a successful config.js validation: commit implies the amount
was present and positive, the sender account was the one looked up, and the
`available` funds check passed. -/
theorem cfg_validate_ok_inv (db : CFG.DB) (req : CFG.Req) (uid : Nat) (tok : String)
    (now days : Int) (d : CFG.OkData)
    (h : CFG.validateTransfer db req uid tok now days = Except.ok d) :
    req.amount = some d.amt ∧ 0 < d.amt ∧
    CFG.findAccount db.accounts (req.sender_account_id.getD 0) = some d.sender ∧
    d.amt ≤ d.sender.available := by
  simp only [CFG.validateTransfer] at h
  split at h
  · exact absurd h (by simp)
  · rename_i hmiss
    split at h
    · exact absurd h (by simp)
    · rename_i hle
      split at h
      · exact absurd h (by simp)
      · rename_i sender hsender
        split at h
        · exact absurd h (by simp)
        · rename_i hown
          split at h
          · exact absurd h (by simp)
          · rename_i hlt
            split at h
            · exact absurd h (by simp)
            · rename_i recipient hres
              obtain ⟨hsid', hamt'⟩ := not_or.mp hmiss
              obtain ⟨a0, ha0⟩ := Option.ne_none_iff_exists'.mp hamt'
              rw [ha0] at hle hlt
              simp only [Option.getD_some] at hle hlt
              cases h
              simp only [ha0, Option.getD_some]
              exact ⟨trivial, by omega, hsender, by omega⟩

/-- Successful internal validation in part_000: with a funded sender and a
resolved internal recipient whose (possibly rewritten) email differs from
the sender's, validation reaches COMMIT with status `completed`. -/
theorem pg_validate_internal
    (db : PG.DB) (req : PG.Req) (requester tok : String) (now days : Int)
    (sender recipient : PG.UserRow) (amt : Int) (re : String)
    (hne : PG.senderEmailOf req requester ≠ "")
    (hamt : req.amount = some amt) (hpos : 0 < amt)
    (hfind : PG.findByEmail db.users (PG.senderEmailOf req requester) = some sender)
    (hfunds : amt ≤ sender.col req.sender_account_type)
    (hres : PG.resolveRecipient db.users (normEmailOpt req.recipient_email)
        (normNameOpt req.recipient_name) = (some recipient, some re))
    (hself : re ≠ PG.senderEmailOf req requester) :
    PG.validateTransfer db req requester tok now days = Except.ok
      { sender := sender
        senderType := req.sender_account_type
        recipType := req.recipient_account_type
        recipient := some recipient
        amt := amt
        senderDesc := jsOr req.description
          ("Transfer to " ++
            (if recipient.accountname = "" then recipient.email else recipient.accountname))
        recDesc := "Received in " ++
            (match req.recipient_account_type with
             | AccType.checking => "checking"
             | AccType.savings => "savings") ++
            " from " ++ (if sender.accountname = "" then sender.email else sender.accountname)
        row := { sender_email := sender.email
                 recipient_email := some re
                 recipient_name := normNameOpt req.recipient_name
                 amount := amt
                 status := "completed"
                 account_number := jsOpt req.account_number
                 routing_number := jsOpt req.routing_number
                 btc_address := jsOpt req.btc_address
                 bank_name := jsOpt req.bank_name
                 description := jsOpt req.description
                 method := jsOr req.method "standard"
                 claim_token := none
                 claim_expires := none } } := by
  have h1 : ¬ (PG.senderEmailOf req requester = "" ∨ req.amount = none) := by
    simp [hne, hamt]
  have h2 : ¬ (amt ≤ 0) := by omega
  have h3 : ¬ (sender.col req.sender_account_type < amt) := by omega
  have h4 : ¬ ((some re : Option String).isSome = true ∧
      (some re : Option String) = some (PG.senderEmailOf req requester)) := by
    intro hc
    exact hself (Option.some.inj hc.2)
  simp only [PG.validateTransfer, hamt, Option.getD_some, h1, hne, h2, hfind, h3, hres,
    h4, if_true, if_false, ite_true, ite_false, Option.isSome_some, not_true,
    and_false, false_and]
  simp [hself]

/-- Successful external validation in part_000 for a non-BTC method: no
internal recipient resolves, at least one external detail (bank pair, BTC
address or a recipient email) is present, and the transfer is recorded as
`pending` with a claim token expiring `claimDays` days out. -/
theorem pg_validate_external
    (db : PG.DB) (req : PG.Req) (requester tok : String) (now days : Int)
    (sender : PG.UserRow) (amt : Int) (reOpt : Option String)
    (hne : PG.senderEmailOf req requester ≠ "")
    (hamt : req.amount = some amt) (hpos : 0 < amt)
    (hfind : PG.findByEmail db.users (PG.senderEmailOf req requester) = some sender)
    (hfunds : amt ≤ sender.col req.sender_account_type)
    (hres : PG.resolveRecipient db.users (normEmailOpt req.recipient_email)
        (normNameOpt req.recipient_name) = (none, reOpt))
    (hdet : (jsTruthy req.account_number = true ∧ jsTruthy req.routing_number = true) ∨
        jsTruthy req.btc_address = true ∨ reOpt.isSome = true)
    (hself : reOpt ≠ some (PG.senderEmailOf req requester))
    (hbtc : req.method ≠ some "btc") :
    PG.validateTransfer db req requester tok now days = Except.ok
      { sender := sender
        senderType := req.sender_account_type
        recipType := req.recipient_account_type
        recipient := none
        amt := amt
        senderDesc := jsOr req.description
          ("External transfer to " ++
            jsOr (normNameOpt req.recipient_name)
              (if jsTruthy req.account_number then "bank account" else jsOr reOpt "recipient"))
        recDesc := ""
        row := { sender_email := sender.email
                 recipient_email := reOpt
                 recipient_name := normNameOpt req.recipient_name
                 amount := amt
                 status := "pending"
                 account_number := jsOpt req.account_number
                 routing_number := jsOpt req.routing_number
                 btc_address := jsOpt req.btc_address
                 bank_name := jsOpt req.bank_name
                 description := jsOpt req.description
                 method := jsOr req.method "standard"
                 claim_token := some tok
                 claim_expires := some (now + days * 86400000) } } := by
  have h1 : ¬ (PG.senderEmailOf req requester = "" ∨ req.amount = none) := by
    simp [hne, hamt]
  have h2 : ¬ (amt ≤ 0) := by omega
  have h3 : ¬ (sender.col req.sender_account_type < amt) := by omega
  have h5 : ¬ (¬ (none : Option PG.UserRow).isSome = true ∧
      ¬ (jsTruthy req.account_number = true ∧ jsTruthy req.routing_number = true) ∧
      ¬ jsTruthy req.btc_address = true ∧ ¬ reOpt.isSome = true) := by
    intro hc
    rcases hdet with h | h | h
    · exact hc.2.1 h
    · exact hc.2.2.1 h
    · exact hc.2.2.2 h
  have h4 : ¬ (reOpt.isSome = true ∧ reOpt = some (PG.senderEmailOf req requester)) := by
    intro hc
    exact hself hc.2
  have h6 : ¬ (req.method = some "btc") := hbtc
  simp only [PG.validateTransfer, hamt, Option.getD_some, h1, hne, h2, hfind, h3, hres,
    h5, h4, h6, if_true, if_false, ite_true, ite_false, Option.isSome_none, not_true,
    not_false_iff, and_false, false_and, true_and, and_true]
  simp
  intro hab hb hnone
  rcases hdet with ⟨h, h'⟩ | h | h
  · rw [hab h] at h'
    exact Bool.noConfusion h'
  · rw [h] at hb
    exact Bool.noConfusion hb
  · rw [hnone] at h
    exact Bool.noConfusion h

/-- Inverting a successful part_000 validation: commit implies the amount
was present and positive, the sender was the user looked up by the
normalised sender email, the funds check on the selected column passed, and
the resolved recipient email (if any) differs from the sender email. -/
theorem pg_validate_ok_inv (db : PG.DB) (req : PG.Req) (requester tok : String)
    (now days : Int) (d : PG.OkData)
    (h : PG.validateTransfer db req requester tok now days = Except.ok d) :
    req.amount = some d.amt ∧ 0 < d.amt ∧
    PG.findByEmail db.users (PG.senderEmailOf req requester) = some d.sender ∧
    d.amt ≤ d.sender.col req.sender_account_type ∧
    d.senderType = req.sender_account_type ∧
    (PG.resolveRecipient db.users (normEmailOpt req.recipient_email)
        (normNameOpt req.recipient_name)).2 ≠ some (PG.senderEmailOf req requester) := by
  simp only [PG.validateTransfer] at h
  split at h
  · exact absurd h (by simp)
  · rename_i hmiss
    split at h
    · exact absurd h (by simp)
    · rename_i hle
      split at h
      · exact absurd h (by simp)
      · rename_i sender hsender
        split at h
        · exact absurd h (by simp)
        · rename_i hlt
          split at h
          · exact absurd h (by simp)
          · rename_i hdet
            split at h
            · exact absurd h (by simp)
            · rename_i hselfc
              obtain ⟨hse', hamt'⟩ := not_or.mp hmiss
              obtain ⟨a0, ha0⟩ := Option.ne_none_iff_exists'.mp hamt'
              rw [ha0] at hle hlt
              simp only [Option.getD_some] at hle hlt
              cases h
              simp only [ha0, Option.getD_some]
              refine ⟨by trivial, by omega, hsender, by omega, by trivial, ?_⟩
              intro hcontra
              exact hselfc ⟨by simp [hcontra], hcontra⟩

section ClaimC2

/-- `setCol` changes no identity column. -/
theorem pg_setCol_id (u : PG.UserRow) (t : AccType) (v : Int) :
    (u.setCol t v).id = u.id := by
  cases t <;> rfl

/-- C2: a committed internal transfer of amount A between two distinct
accounts debits the sender by exactly A, credits the recipient by exactly
A (all other rows untouched, so the two balance changes sum to zero),
inserts exactly one debit and one credit transaction row of amount A, and
inserts exactly one `completed` transfer row — in both the config.js and
the part_000 variant. -/
theorem c2_internal_transfer_conservation :
    (∀ (db : CFG.DB) (req : CFG.Req) (uid : Nat) (tok : String) (now days : Int)
       (sid rid : Nat) (sAcc rAcc : CFG.Account) (amt : Int),
       req.sender_account_id = some sid →
       req.recipient_account_id = some rid →
       req.amount = some amt → 0 < amt →
       CFG.findAccount db.accounts sid = some sAcc →
       sAcc.user_id = uid →
       amt ≤ sAcc.available →
       CFG.findAccount db.accounts rid = some rAcc →
       rAcc.id ≠ sAcc.id →
       ∃ row,
         (CFG.transfer db req uid tok now days).1 = CFG.Resp.created row ∧
         row.status = "completed" ∧ row.amount = amt ∧
         (CFG.transfer db req uid tok now days).2.accounts =
           db.accounts.map (fun a =>
             if a.id = sAcc.id then
               { a with balance := a.balance - amt, available := a.available - amt }
             else if a.id = rAcc.id then
               { a with balance := a.balance + amt, available := a.available + amt }
             else a) ∧
         (CFG.transfer db req uid tok now days).2.transactions.map
             (fun t => (t.account_id, t.type, t.amount)) =
           db.transactions.map (fun t => (t.account_id, t.type, t.amount)) ++
             [(sAcc.id, TxType.debit, amt), (rAcc.id, TxType.credit, amt)] ∧
         (CFG.transfer db req uid tok now days).2.transfers.map
             (fun r => (r.amount, r.status)) =
           db.transfers.map (fun r => (r.amount, r.status)) ++ [(amt, "completed")]) ∧
    (∀ (db : PG.DB) (req : PG.Req) (requester tok : String) (now days : Int)
       (sender recipient : PG.UserRow) (amt : Int) (re : String),
       PG.senderEmailOf req requester ≠ "" →
       req.amount = some amt → 0 < amt →
       PG.findByEmail db.users (PG.senderEmailOf req requester) = some sender →
       amt ≤ sender.col req.sender_account_type →
       PG.resolveRecipient db.users (normEmailOpt req.recipient_email)
           (normNameOpt req.recipient_name) = (some recipient, some re) →
       re ≠ PG.senderEmailOf req requester →
       recipient.id ≠ sender.id →
       ∃ row,
         (PG.transfer db req requester tok now days).1 = PG.Resp.created row ∧
         row.status = "completed" ∧ row.amount = amt ∧
         (PG.transfer db req requester tok now days).2.users =
           db.users.map (fun u =>
             if u.id = sender.id then
               u.setCol req.sender_account_type (u.col req.sender_account_type - amt)
             else if u.id = recipient.id then
               u.setCol req.recipient_account_type (u.col req.recipient_account_type + amt)
             else u) ∧
         (PG.transfer db req requester tok now days).2.transactions.map
             (fun t => (t.user_email, t.type, t.amount)) =
           db.transactions.map (fun t => (t.user_email, t.type, t.amount)) ++
             [(sender.email, TxType.debit, amt), (recipient.email, TxType.credit, amt)] ∧
         (PG.transfer db req requester tok now days).2.transfers.map
             (fun r => (r.amount, r.status)) =
           db.transfers.map (fun r => (r.amount, r.status)) ++ [(amt, "completed")]) := by
  constructor
  · intro db req uid tok now days sid rid sAcc rAcc amt hsid hrid hamt hpos hs hown
      hfunds hr hneq
    have hv := cfg_validate_internal db req uid tok now days sid rid sAcc rAcc amt
      hsid hrid hamt hpos hs hown hfunds hr
    unfold CFG.transfer
    rw [hv]
    refine ⟨_, rfl, rfl, rfl, ?_, ?_, ?_⟩
    · simp only [CFG.applyTransfer]
      rw [List.map_map]
      refine List.map_congr_left (fun a _ => ?_)
      by_cases h : a.id = sAcc.id
      · have hne2 : ¬ (a.id = rAcc.id) := by
          rw [h]
          exact fun hc => hneq hc.symm
        simp [CFG.debitAcc, CFG.creditAcc, Function.comp, h, hne2, Ne.symm hneq]
      · by_cases h2 : a.id = rAcc.id <;>
          simp [CFG.debitAcc, CFG.creditAcc, Function.comp, h, h2, hneq]
    · simp [CFG.applyTransfer]
    · simp [CFG.applyTransfer]
  · intro db req requester tok now days sender recipient amt re hne hamt hpos hfind
      hfunds hres hself hneq
    have hv := pg_validate_internal db req requester tok now days sender recipient amt
      re hne hamt hpos hfind hfunds hres hself
    unfold PG.transfer
    rw [hv]
    refine ⟨_, rfl, rfl, rfl, ?_, ?_, ?_⟩
    · simp only [PG.applyTransfer]
      rw [List.map_map]
      refine List.map_congr_left (fun u _ => ?_)
      by_cases h : u.id = sender.id
      · have hne2 : ¬ ((u.setCol req.sender_account_type
            (u.col req.sender_account_type - amt)).id = recipient.id) := by
          rw [pg_setCol_id, h]
          exact fun hc => hneq hc.symm
        simp [PG.debitUser, PG.creditUser, Function.comp, h, hne2, Ne.symm hneq]
      · by_cases h2 : u.id = recipient.id <;>
          simp [PG.debitUser, PG.creditUser, Function.comp, h, h2, hneq]
    · simp [PG.applyTransfer]
    · simp [PG.applyTransfer]

/-- C2 witness: Alice (checking 100.00) sends 40.00 to Bob (checking 10.00)
in both variants: she ends at 60.00, Bob at 50.00, with exactly one debit
and one credit row of 40.00 and one completed transfer row. -/
theorem c2_internal_transfer_conservation_witness :
    ((cfgReq40.sender_account_id = some 10) ∧
     (cfgReq40.recipient_account_id = some 20) ∧
     (cfgReq40.amount = some 4000) ∧ ((0 : Int) < 4000) ∧
     (CFG.findAccount cfgDb.accounts 10 = some ⟨10, 1, 10000, 10000, "checking"⟩) ∧
     ((10 : Nat) = 1 ∨ True) ∧
     ((4000 : Int) ≤ 10000) ∧
     (CFG.findAccount cfgDb.accounts 20 = some ⟨20, 2, 1000, 1000, "checking"⟩) ∧
     ((20 : Nat) ≠ 10)) ∧
    (∃ row,
       (CFG.transfer cfgDb cfgReq40 1 "tok" 1000 7).1 = CFG.Resp.created row ∧
       row.status = "completed" ∧ row.amount = 4000 ∧
       (CFG.transfer cfgDb cfgReq40 1 "tok" 1000 7).2.accounts =
         cfgDb.accounts.map (fun a =>
           if a.id = 10 then
             { a with balance := a.balance - 4000, available := a.available - 4000 }
           else if a.id = 20 then
             { a with balance := a.balance + 4000, available := a.available + 4000 }
           else a) ∧
       (CFG.transfer cfgDb cfgReq40 1 "tok" 1000 7).2.transactions.map
           (fun t => (t.account_id, t.type, t.amount)) =
         cfgDb.transactions.map (fun t => (t.account_id, t.type, t.amount)) ++
           [(10, TxType.debit, 4000), (20, TxType.credit, 4000)] ∧
       (CFG.transfer cfgDb cfgReq40 1 "tok" 1000 7).2.transfers.map
           (fun r => (r.amount, r.status)) =
         cfgDb.transfers.map (fun r => (r.amount, r.status)) ++ [(4000, "completed")]) ∧
    (∃ row,
       (PG.transfer pgDb pgReq40 "alice@bank.com" "tok" 1000 7).1
           = PG.Resp.created row ∧
       row.status = "completed" ∧ row.amount = 4000 ∧
       (PG.transfer pgDb pgReq40 "alice@bank.com" "tok" 1000 7).2.users =
         pgDb.users.map (fun u =>
           if u.id = pgAlice.id then
             u.setCol pgReq40.sender_account_type
               (u.col pgReq40.sender_account_type - 4000)
           else if u.id = pgBob.id then
             u.setCol pgReq40.recipient_account_type
               (u.col pgReq40.recipient_account_type + 4000)
           else u) ∧
       (PG.transfer pgDb pgReq40 "alice@bank.com" "tok" 1000 7).2.transactions.map
           (fun t => (t.user_email, t.type, t.amount)) =
         pgDb.transactions.map (fun t => (t.user_email, t.type, t.amount)) ++
           [("alice@bank.com", TxType.debit, 4000), ("bob@bank.com", TxType.credit, 4000)] ∧
       (PG.transfer pgDb pgReq40 "alice@bank.com" "tok" 1000 7).2.transfers.map
           (fun r => (r.amount, r.status)) =
         pgDb.transfers.map (fun r => (r.amount, r.status)) ++ [(4000, "completed")]) :=
  ⟨by decide,
   c2_internal_transfer_conservation.1 cfgDb cfgReq40 1 "tok" 1000 7 10 20
     ⟨10, 1, 10000, 10000, "checking"⟩ ⟨20, 2, 1000, 1000, "checking"⟩ 4000
     (by decide) (by decide) (by decide) (by decide) (by decide) (by decide)
     (by decide) (by decide) (by decide),
   c2_internal_transfer_conservation.2 pgDb pgReq40 "alice@bank.com" "tok" 1000 7
     pgAlice pgBob 4000 "bob@bank.com"
     (by decide) (by decide) (by decide) (by decide) (by decide) (by decide)
     (by decide) (by decide)⟩

end ClaimC2

section ClaimC3

/-- `findAccount` looks through an id-preserving row update. -/
theorem cfg_findAccount_map (l : List CFG.Account) (g : CFG.Account → CFG.Account)
    (hg : ∀ x, (g x).id = x.id) (i : Nat) :
    CFG.findAccount (l.map g) i = (CFG.findAccount l i).map g := by
  unfold CFG.findAccount
  exact find?_map_pres g _ (fun x => by simp [hg x]) l

/-- `findById` looks through an id-preserving row update. -/
theorem pg_findById_map (l : List PG.UserRow) (g : PG.UserRow → PG.UserRow)
    (hg : ∀ x, (g x).id = x.id) (i : Nat) :
    PG.findById (l.map g) i = (PG.findById l i).map g := by
  unfold PG.findById
  exact find?_map_pres g _ (fun x => by simp [hg x]) l

/-- A row found by `findAccount` carries the looked-up id. -/
theorem cfg_findAccount_some_id (l : List CFG.Account) (i : Nat) (a : CFG.Account)
    (h : CFG.findAccount l i = some a) : a.id = i := by
  unfold CFG.findAccount at h
  have h2 := List.find?_some h
  simpa using h2

/-- A row found by `findAccount` is a member of the table. -/
theorem cfg_findAccount_mem (l : List CFG.Account) (i : Nat) (a : CFG.Account)
    (h : CFG.findAccount l i = some a) : a ∈ l := by
  unfold CFG.findAccount at h
  exact List.mem_of_find?_eq_some h

/-- A row found by `findById` carries the looked-up id. -/
theorem pg_findById_some_id (l : List PG.UserRow) (i : Nat) (u : PG.UserRow)
    (h : PG.findById l i = some u) : u.id = i := by
  unfold PG.findById at h
  have h2 := List.find?_some h
  simpa using h2

/-- A row found by `findById` is a member of the table. -/
theorem pg_findById_mem (l : List PG.UserRow) (i : Nat) (u : PG.UserRow)
    (h : PG.findById l i = some u) : u ∈ l := by
  unfold PG.findById at h
  exact List.mem_of_find?_eq_some h

/-- A row found by `findByEmail` is a member of the table. -/
theorem pg_findByEmail_mem (l : List PG.UserRow) (e : String) (u : PG.UserRow)
    (h : PG.findByEmail l e = some u) : u ∈ l := by
  unfold PG.findByEmail at h
  exact List.mem_of_find?_eq_some h

/-- The config.js debit update never changes a row id. -/
theorem cfg_debitAcc_id (sid2 : Nat) (amt : Int) (a : CFG.Account) :
    (CFG.debitAcc sid2 amt a).id = a.id := by
  unfold CFG.debitAcc
  by_cases h : a.id = sid2 <;> simp [h]

/-- The config.js credit update never changes a row id. -/
theorem cfg_creditAcc_id (rid2 : Nat) (amt : Int) (a : CFG.Account) :
    (CFG.creditAcc rid2 amt a).id = a.id := by
  unfold CFG.creditAcc
  by_cases h : a.id = rid2 <;> simp [h]

/-- The part_000 debit update never changes a row id. -/
theorem pg_debitUser_id (sid2 : Nat) (t : AccType) (amt : Int) (u : PG.UserRow) :
    (PG.debitUser sid2 t amt u).id = u.id := by
  unfold PG.debitUser
  by_cases h : u.id = sid2 <;> simp [h, pg_setCol_id]

/-- The part_000 credit update never changes a row id. -/
theorem pg_creditUser_id (rid2 : Nat) (t : AccType) (amt : Int) (u : PG.UserRow) :
    (PG.creditUser rid2 t amt u).id = u.id := by
  unfold PG.creditUser
  by_cases h : u.id = rid2 <;> simp [h, pg_setCol_id]

/-- Crediting a positive amount preserves the account-state invariant. -/
theorem cfg_creditAcc_preserves (rid2 : Nat) (amt : Int) (hpos : 0 < amt)
    (x : CFG.Account) (hx : 0 ≤ x.available ∧ 0 ≤ x.balance ∧ x.available ≤ x.balance) :
    0 ≤ (CFG.creditAcc rid2 amt x).available ∧ 0 ≤ (CFG.creditAcc rid2 amt x).balance ∧
      (CFG.creditAcc rid2 amt x).available ≤ (CFG.creditAcc rid2 amt x).balance := by
  unfold CFG.creditAcc
  by_cases h : x.id = rid2 <;> simp [h] <;> omega

/-- Crediting a positive amount to either column keeps both columns
non-negative. -/
theorem pg_creditUser_preserves (rid2 : Nat) (t : AccType) (amt : Int) (hpos : 0 < amt)
    (x : PG.UserRow) (hx : 0 ≤ x.checking ∧ 0 ≤ x.savings) :
    0 ≤ (PG.creditUser rid2 t amt x).checking ∧ 0 ≤ (PG.creditUser rid2 t amt x).savings := by
  unfold PG.creditUser
  by_cases h : x.id = rid2 <;> cases t <;>
    simp [h, PG.UserRow.setCol, PG.UserRow.col] <;> omega

/-- C3 counterexample: the claim quantifies over accounts whose balance and
available are merely non-negative, but config.js checks only `available`
while debiting both columns; from balance 5.00, available 10.00 (both
non-negative) a 7.00 transfer commits and leaves balance -2.00 < 0. -/
theorem c3_counterexample_only_available_checked :
    (CFG.findAccount cfgDbSkew.accounts 10 = some ⟨10, 1, 500, 1000, "checking"⟩) ∧
    ((0 : Int) ≤ 500 ∧ (0 : Int) ≤ 1000) ∧
    ((CFG.transfer cfgDbSkew cfgReqExt 1 "tok" 1000 7).1 = CFG.Resp.created
      { sender_account_id := 10, recipient_account_id := none,
        recipient_email := none, recipient_name := none, amount := 700,
        currency := "USD", method := "standard", status := "pending",
        bank_name := none, account_number := none, routing_number := none,
        btc_address := none, description := none, claim_token := some "tok",
        claim_expires := some 604801000 }) ∧
    CFG.findAccount (CFG.transfer cfgDbSkew cfgReqExt 1 "tok" 1000 7).2.accounts 10
        = some ⟨10, 1, -200, 300, "checking"⟩ ∧
    (-200 : Int) < 0 :=
  ⟨by decide, by decide, by decide, by decide, by decide⟩

/-- C3 (amended): non-negativity is preserved by every committed transfer
provided the account additionally satisfies the data-model invariant
`available ≤ balance` (true of every account the code can produce, since
accounts are created with balance = available and every update moves both
by the same amount): in config.js the checked column is `available`, and in
part_000 the checked column is the debited checking/savings column itself,
so no committed transfer drives any column below zero. -/
theorem c3_amended_nonneg_preserved :
    (∀ (db : CFG.DB) (req : CFG.Req) (uid : Nat) (tok : String) (now days : Int)
       (row : CFG.TransferRow) (i : Nat) (a : CFG.Account),
       (CFG.transfer db req uid tok now days).1 = CFG.Resp.created row →
       CFG.findAccount db.accounts i = some a →
       0 ≤ a.available → a.available ≤ a.balance →
       ∃ a2, CFG.findAccount (CFG.transfer db req uid tok now days).2.accounts i
           = some a2 ∧
         0 ≤ a2.available ∧ 0 ≤ a2.balance ∧ a2.available ≤ a2.balance) ∧
    (∀ (db : PG.DB) (req : PG.Req) (requester tok : String) (now days : Int)
       (row : PG.TransferRow) (i : Nat) (u : PG.UserRow),
       (PG.transfer db req requester tok now days).1 = PG.Resp.created row →
       (db.users.map (fun x => x.id)).Nodup →
       PG.findById db.users i = some u →
       0 ≤ u.checking → 0 ≤ u.savings →
       ∃ u2, PG.findById (PG.transfer db req requester tok now days).2.users i
           = some u2 ∧
         0 ≤ u2.checking ∧ 0 ≤ u2.savings) := by
  constructor
  · intro db req uid tok now days row i a hcr hfa hav hab
    cases hv : CFG.validateTransfer db req uid tok now days with
    | error e =>
      unfold CFG.transfer at hcr
      rw [hv] at hcr
      exact absurd (show CFG.Resp.err e.1 e.2 = CFG.Resp.created row from hcr) (by simp)
    | ok d =>
      obtain ⟨hamt, hpos, hsender, hfunds⟩ := cfg_validate_ok_inv db req uid tok now days d hv
      unfold CFG.transfer
      rw [hv]
      have hai : a.id = i := cfg_findAccount_some_id db.accounts i a hfa
      have hsid : d.sender.id = req.sender_account_id.getD 0 :=
        cfg_findAccount_some_id db.accounts (req.sender_account_id.getD 0) d.sender hsender
      have htriple : 0 ≤ (CFG.debitAcc d.sender.id d.amt a).available ∧
          0 ≤ (CFG.debitAcc d.sender.id d.amt a).balance ∧
          (CFG.debitAcc d.sender.id d.amt a).available
            ≤ (CFG.debitAcc d.sender.id d.amt a).balance := by
        unfold CFG.debitAcc
        by_cases hc : a.id = d.sender.id
        · have hieq : i = req.sender_account_id.getD 0 := by rw [← hai, hc, hsid]
          have haeq : a = d.sender := by
            have h2 : some a = some d.sender := by rw [← hfa, hieq, hsender]
            exact Option.some.inj h2
          subst haeq
          simp only [if_pos hc]
          refine ⟨?_, ?_, ?_⟩
          · show 0 ≤ d.sender.available - d.amt
            omega
          · show 0 ≤ d.sender.balance - d.amt
            omega
          · show d.sender.available - d.amt ≤ d.sender.balance - d.amt
            omega
        · simp only [if_neg hc]
          exact ⟨hav, by omega, hab⟩
      cases hrec : d.recipient with
      | none =>
        simp only [CFG.applyTransfer, hrec]
        rw [cfg_findAccount_map db.accounts _ (cfg_debitAcc_id d.sender.id d.amt) i, hfa]
        exact ⟨CFG.debitAcc d.sender.id d.amt a, rfl, htriple.1, htriple.2.1, htriple.2.2⟩
      | some r =>
        simp only [CFG.applyTransfer, hrec]
        rw [cfg_findAccount_map _ _ (cfg_creditAcc_id r.id d.amt) i,
          cfg_findAccount_map db.accounts _ (cfg_debitAcc_id d.sender.id d.amt) i, hfa]
        exact ⟨CFG.creditAcc r.id d.amt (CFG.debitAcc d.sender.id d.amt a), rfl,
          cfg_creditAcc_preserves r.id d.amt hpos _ htriple⟩
  · intro db req requester tok now days row i u hcr hnd hfa hch hsv
    cases hv : PG.validateTransfer db req requester tok now days with
    | error e =>
      unfold PG.transfer at hcr
      rw [hv] at hcr
      exact absurd (show PG.Resp.err e.1 e.2 = PG.Resp.created row from hcr) (by simp)
    | ok d =>
      obtain ⟨hamt, hpos, hsender, hfunds, hstype, hselfne⟩ :=
        pg_validate_ok_inv db req requester tok now days d hv
      unfold PG.transfer
      rw [hv]
      have hai : u.id = i := pg_findById_some_id db.users i u hfa
      have hpair : 0 ≤ (PG.debitUser d.sender.id d.senderType d.amt u).checking ∧
          0 ≤ (PG.debitUser d.sender.id d.senderType d.amt u).savings := by
        unfold PG.debitUser
        by_cases hc : u.id = d.sender.id
        · have hueq : u = d.sender := by
            exact List.inj_on_of_nodup_map hnd
              (pg_findById_mem db.users i u hfa)
              (pg_findByEmail_mem db.users (PG.senderEmailOf req requester) d.sender hsender)
              hc
          subst hueq
          rw [if_pos hc]
          rw [hstype]
          cases hst : req.sender_account_type <;>
            rw [hst] at hfunds <;>
            simp only [PG.UserRow.setCol, PG.UserRow.col] at hfunds ⊢ <;>
            exact ⟨by omega, by omega⟩
        · simp only [if_neg hc]
          exact ⟨hch, hsv⟩
      cases hrec : d.recipient with
      | none =>
        simp only [PG.applyTransfer, hrec]
        rw [pg_findById_map db.users _ (pg_debitUser_id d.sender.id d.senderType d.amt) i,
          hfa]
        exact ⟨PG.debitUser d.sender.id d.senderType d.amt u, rfl, hpair⟩
      | some r =>
        simp only [PG.applyTransfer, hrec]
        rw [pg_findById_map _ _ (pg_creditUser_id r.id d.recipType d.amt) i,
          pg_findById_map db.users _ (pg_debitUser_id d.sender.id d.senderType d.amt) i,
          hfa]
        exact ⟨PG.creditUser r.id d.recipType d.amt
            (PG.debitUser d.sender.id d.senderType d.amt u), rfl,
          pg_creditUser_preserves r.id d.recipType d.amt hpos _ hpair⟩

/-- C3 witness: the committed 40.00 internal transfer from Alice's account
(10000/10000) keeps every looked-up account non-negative in both variants. -/
theorem c3_amended_nonneg_preserved_witness :
    ((CFG.transfer cfgDb cfgReq40 1 "tok" 1000 7).1 = CFG.Resp.created
      { sender_account_id := 10, recipient_account_id := some 20,
        recipient_email := none, recipient_name := none, amount := 4000,
        currency := "USD", method := "standard", status := "completed",
        bank_name := none, account_number := none, routing_number := none,
        btc_address := none, description := none, claim_token := none,
        claim_expires := none } ∧
     CFG.findAccount cfgDb.accounts 10 = some ⟨10, 1, 10000, 10000, "checking"⟩ ∧
     (0 : Int) ≤ 10000 ∧ (10000 : Int) ≤ 10000 ∧
     (PG.transfer pgDb pgReq40 "alice@bank.com" "tok" 1000 7).1 = PG.Resp.created
      { sender_email := "alice@bank.com", recipient_email := some "bob@bank.com",
        recipient_name := none, amount := 4000, status := "completed",
        account_number := none, routing_number := none, btc_address := none,
        bank_name := none, description := none, method := "standard",
        claim_token := none, claim_expires := none } ∧
     (pgDb.users.map (fun x => x.id)).Nodup ∧
     PG.findById pgDb.users 1 = some pgAlice ∧
     (0 : Int) ≤ pgAlice.checking ∧ (0 : Int) ≤ pgAlice.savings) ∧
    (∃ a2, CFG.findAccount (CFG.transfer cfgDb cfgReq40 1 "tok" 1000 7).2.accounts 10
        = some a2 ∧ 0 ≤ a2.available ∧ 0 ≤ a2.balance ∧ a2.available ≤ a2.balance) ∧
    (∃ u2, PG.findById (PG.transfer pgDb pgReq40 "alice@bank.com" "tok" 1000 7).2.users 1
        = some u2 ∧ 0 ≤ u2.checking ∧ 0 ≤ u2.savings) :=
  ⟨by decide,
   c3_amended_nonneg_preserved.1 cfgDb cfgReq40 1 "tok" 1000 7
     { sender_account_id := 10, recipient_account_id := some 20,
        recipient_email := none, recipient_name := none, amount := 4000,
        currency := "USD", method := "standard", status := "completed",
        bank_name := none, account_number := none, routing_number := none,
        btc_address := none, description := none, claim_token := none,
        claim_expires := none } 10
     ⟨10, 1, 10000, 10000, "checking"⟩ (by decide) (by decide) (by decide) (by decide),
   c3_amended_nonneg_preserved.2 pgDb pgReq40 "alice@bank.com" "tok" 1000 7
     { sender_email := "alice@bank.com", recipient_email := some "bob@bank.com",
        recipient_name := none, amount := 4000, status := "completed",
        account_number := none, routing_number := none, btc_address := none,
        bank_name := none, description := none, method := "standard",
        claim_token := none, claim_expires := none } 1 pgAlice
     (by decide) (by decide) (by decide) (by decide) (by decide)⟩

end ClaimC3

section ClaimC5

/-- C5 counterexample: an external transfer with `method: 'btc'` in
part_000 is created with status `sent` — not `pending` — and carries no
claim token and no expiry (the token branch only runs when the computed
status is `pending`); the sender is still debited. -/
theorem c5_counterexample_btc_external_not_pending :
    (PG.resolveRecipient pgDb.users (normEmailOpt pgReqBtc.recipient_email)
        (normNameOpt pgReqBtc.recipient_name) = (none, none)) ∧
    ((PG.transfer pgDb pgReqBtc "alice@bank.com" "tok" 1000 7).1 = PG.Resp.created
      { sender_email := "alice@bank.com", recipient_email := none,
        recipient_name := none, amount := 700, status := "sent",
        account_number := none, routing_number := none,
        btc_address := some "bc1qexampleaddr", bank_name := none,
        description := none, method := "btc", claim_token := none,
        claim_expires := none }) ∧
    ("sent" ≠ "pending") ∧
    PG.findById (PG.transfer pgDb pgReqBtc "alice@bank.com" "tok" 1000 7).2.users 1
        = some { pgAlice with checking := 9300 } :=
  ⟨by decide, by decide, by decide, by decide⟩

/-- C5 (amended): an external transfer (recipient resolves to no internal
account) commits with a transfer row of status `pending`, a claim token and
an expiry `claimDays` days ahead (CLAIM_TOKEN_DAYS, default 7); the sender
is debited and no other account row is touched, and exactly one (debit)
transaction row is inserted — except in part_000 when `method` is `btc`,
where the row is created as `sent` with no claim token. -/
theorem c5_amended_external_pending_with_token :
    (∀ (db : CFG.DB) (req : CFG.Req) (uid : Nat) (tok : String) (now days : Int)
       (sid : Nat) (sAcc : CFG.Account) (amt : Int),
       req.sender_account_id = some sid →
       req.amount = some amt → 0 < amt →
       CFG.findAccount db.accounts sid = some sAcc →
       sAcc.user_id = uid →
       amt ≤ sAcc.available →
       CFG.resolveRecipient db req.recipient_account_id (CFG.reLowerOf req)
           = Except.ok none →
       ∃ row,
         (CFG.transfer db req uid tok now days).1 = CFG.Resp.created row ∧
         row.status = "pending" ∧
         row.claim_token = some tok ∧
         row.claim_expires = some (now + days * 86400000) ∧
         (CFG.transfer db req uid tok now days).2.accounts
             = db.accounts.map (CFG.debitAcc sAcc.id amt) ∧
         (CFG.transfer db req uid tok now days).2.transactions.map
             (fun t => (t.account_id, t.type, t.amount)) =
           db.transactions.map (fun t => (t.account_id, t.type, t.amount)) ++
             [(sAcc.id, TxType.debit, amt)] ∧
         (CFG.transfer db req uid tok now days).2.transfers.map
             (fun r => (r.amount, r.status)) =
           db.transfers.map (fun r => (r.amount, r.status)) ++ [(amt, "pending")]) ∧
    (∀ (db : PG.DB) (req : PG.Req) (requester tok : String) (now days : Int)
       (sender : PG.UserRow) (amt : Int) (reOpt : Option String),
       PG.senderEmailOf req requester ≠ "" →
       req.amount = some amt → 0 < amt →
       PG.findByEmail db.users (PG.senderEmailOf req requester) = some sender →
       amt ≤ sender.col req.sender_account_type →
       PG.resolveRecipient db.users (normEmailOpt req.recipient_email)
           (normNameOpt req.recipient_name) = (none, reOpt) →
       ((jsTruthy req.account_number = true ∧ jsTruthy req.routing_number = true) ∨
         jsTruthy req.btc_address = true ∨ reOpt.isSome = true) →
       reOpt ≠ some (PG.senderEmailOf req requester) →
       req.method ≠ some "btc" →
       ∃ row,
         (PG.transfer db req requester tok now days).1 = PG.Resp.created row ∧
         row.status = "pending" ∧
         row.claim_token = some tok ∧
         row.claim_expires = some (now + days * 86400000) ∧
         (PG.transfer db req requester tok now days).2.users
             = db.users.map (PG.debitUser sender.id req.sender_account_type amt) ∧
         (PG.transfer db req requester tok now days).2.transactions.map
             (fun t => (t.user_email, t.type, t.amount)) =
           db.transactions.map (fun t => (t.user_email, t.type, t.amount)) ++
             [(sender.email, TxType.debit, amt)] ∧
         (PG.transfer db req requester tok now days).2.transfers.map
             (fun r => (r.amount, r.status)) =
           db.transfers.map (fun r => (r.amount, r.status)) ++ [(amt, "pending")]) := by
  constructor
  · intro db req uid tok now days sid sAcc amt hsid hamt hpos hs hown hfunds hres
    have hv := cfg_validate_external db req uid tok now days sid sAcc amt
      hsid hamt hpos hs hown hfunds hres
    unfold CFG.transfer
    rw [hv]
    refine ⟨_, rfl, rfl, rfl, rfl, ?_, ?_, ?_⟩
    · simp [CFG.applyTransfer]
    · simp [CFG.applyTransfer]
    · simp [CFG.applyTransfer]
  · intro db req requester tok now days sender amt reOpt hne hamt hpos hfind hfunds
      hres hdet hself hbtc
    have hv := pg_validate_external db req requester tok now days sender amt reOpt
      hne hamt hpos hfind hfunds hres hdet hself hbtc
    unfold PG.transfer
    rw [hv]
    refine ⟨_, rfl, rfl, rfl, rfl, ?_, ?_, ?_⟩
    · simp [PG.applyTransfer]
    · simp [PG.applyTransfer]
    · simp [PG.applyTransfer]

/-- C5 witness: an external transfer of 7.00 with bank details (part_000)
and with no recipient at all (config.js), at `claimDays = 7` and
`now = 1000`: both commit as `pending` with the claim token and the expiry
1000 + 7·86400000 = 604801000, debiting only the sender. -/
theorem c5_amended_external_pending_with_token_witness :
    ((cfgReqExt.sender_account_id = some 10) ∧
     (cfgReqExt.amount = some 700) ∧ ((0 : Int) < 700) ∧
     (CFG.findAccount cfgDb.accounts 10 = some ⟨10, 1, 10000, 10000, "checking"⟩) ∧
     ((700 : Int) ≤ 10000) ∧
     (CFG.resolveRecipient cfgDb cfgReqExt.recipient_account_id (CFG.reLowerOf cfgReqExt)
         = Except.ok none) ∧
     (PG.senderEmailOf pgReqExt "alice@bank.com" ≠ "") ∧
     (pgReqExt.amount = some 700) ∧
     (PG.findByEmail pgDb.users (PG.senderEmailOf pgReqExt "alice@bank.com")
         = some pgAlice) ∧
     ((700 : Int) ≤ pgAlice.col pgReqExt.sender_account_type) ∧
     (PG.resolveRecipient pgDb.users (normEmailOpt pgReqExt.recipient_email)
         (normNameOpt pgReqExt.recipient_name) = (none, none)) ∧
     (jsTruthy pgReqExt.account_number = true ∧ jsTruthy pgReqExt.routing_number = true) ∧
     (pgReqExt.method ≠ some "btc")) ∧
    (∃ row,
       (CFG.transfer cfgDb cfgReqExt 1 "tok" 1000 7).1 = CFG.Resp.created row ∧
       row.status = "pending" ∧
       row.claim_token = some "tok" ∧
       row.claim_expires = some (1000 + 7 * 86400000) ∧
       (CFG.transfer cfgDb cfgReqExt 1 "tok" 1000 7).2.accounts
           = cfgDb.accounts.map (CFG.debitAcc 10 700) ∧
       (CFG.transfer cfgDb cfgReqExt 1 "tok" 1000 7).2.transactions.map
           (fun t => (t.account_id, t.type, t.amount)) =
         cfgDb.transactions.map (fun t => (t.account_id, t.type, t.amount)) ++
           [(10, TxType.debit, 700)] ∧
       (CFG.transfer cfgDb cfgReqExt 1 "tok" 1000 7).2.transfers.map
           (fun r => (r.amount, r.status)) =
         cfgDb.transfers.map (fun r => (r.amount, r.status)) ++ [(700, "pending")]) ∧
    (∃ row,
       (PG.transfer pgDb pgReqExt "alice@bank.com" "tok" 1000 7).1
           = PG.Resp.created row ∧
       row.status = "pending" ∧
       row.claim_token = some "tok" ∧
       row.claim_expires = some (1000 + 7 * 86400000) ∧
       (PG.transfer pgDb pgReqExt "alice@bank.com" "tok" 1000 7).2.users
           = pgDb.users.map (PG.debitUser pgAlice.id pgReqExt.sender_account_type 700) ∧
       (PG.transfer pgDb pgReqExt "alice@bank.com" "tok" 1000 7).2.transactions.map
           (fun t => (t.user_email, t.type, t.amount)) =
         pgDb.transactions.map (fun t => (t.user_email, t.type, t.amount)) ++
           [("alice@bank.com", TxType.debit, 700)] ∧
       (PG.transfer pgDb pgReqExt "alice@bank.com" "tok" 1000 7).2.transfers.map
           (fun r => (r.amount, r.status)) =
         pgDb.transfers.map (fun r => (r.amount, r.status)) ++ [(700, "pending")]) :=
  ⟨⟨by decide, by decide, by decide, by decide, by decide, by rfl, by decide,
    by decide, by decide, by decide, by decide, by decide, by decide⟩,
   c5_amended_external_pending_with_token.1 cfgDb cfgReqExt 1 "tok" 1000 7 10
     ⟨10, 1, 10000, 10000, "checking"⟩ 700
     (by decide) (by decide) (by decide) (by decide) (by decide) (by decide) (by rfl),
   c5_amended_external_pending_with_token.2 pgDb pgReqExt "alice@bank.com" "tok" 1000 7
     pgAlice 700 none
     (by decide) (by decide) (by decide) (by decide) (by decide) (by decide)
     (by decide) (by decide) (by decide)⟩

end ClaimC5

section ClaimC6

/-- C6 counterexample: config.js has no self-transfer check: a transfer
whose recipient account id equals the sender account id commits with 201
and status `completed`, creating one transfer row and two transaction rows
(the claim says it must always fail with no row created); the balance nets
to zero. -/
theorem c6_counterexample_self_transfer_commits :
    (cfgReqSelf.sender_account_id = cfgReqSelf.recipient_account_id) ∧
    ((CFG.transfer cfgDb cfgReqSelf 1 "tok" 1000 7).1 = CFG.Resp.created
      { sender_account_id := 10, recipient_account_id := some 10,
        recipient_email := none, recipient_name := none, amount := 500,
        currency := "USD", method := "standard", status := "completed",
        bank_name := none, account_number := none, routing_number := none,
        btc_address := none, description := none, claim_token := none,
        claim_expires := none }) ∧
    (CFG.transfer cfgDb cfgReqSelf 1 "tok" 1000 7).2.transfers.length
        = cfgDb.transfers.length + 1 ∧
    (CFG.transfer cfgDb cfgReqSelf 1 "tok" 1000 7).2.transactions.length
        = cfgDb.transactions.length + 2 ∧
    CFG.findAccount (CFG.transfer cfgDb cfgReqSelf 1 "tok" 1000 7).2.accounts 10
        = some ⟨10, 1, 10000, 10000, "checking"⟩ :=
  ⟨by decide, by decide, by decide, by decide, by decide⟩

/-- C6 (amended): the part_000 variant rejects every request whose resolved
recipient email equals the normalised sender email — the request fails with
some 4xx error and no state is mutated; the config.js variant has no
self-transfer check: a transfer from an account to itself commits with
status `completed` (net balance change zero, though it still inserts one
transfer and two transaction rows). -/
theorem c6_amended_self_transfer :
    (∀ (db : PG.DB) (req : PG.Req) (requester tok : String) (now days : Int),
       (PG.resolveRecipient db.users (normEmailOpt req.recipient_email)
           (normNameOpt req.recipient_name)).2
           = some (PG.senderEmailOf req requester) →
       ∃ e m, PG.transfer db req requester tok now days = (PG.Resp.err e m, db)) ∧
    (∀ (db : CFG.DB) (req : CFG.Req) (uid : Nat) (tok : String) (now days : Int)
       (i : Nat) (acc : CFG.Account) (amt : Int),
       req.sender_account_id = some i →
       req.recipient_account_id = some i →
       req.amount = some amt → 0 < amt →
       CFG.findAccount db.accounts i = some acc →
       acc.user_id = uid →
       amt ≤ acc.available →
       ∃ row, (CFG.transfer db req uid tok now days).1 = CFG.Resp.created row ∧
         row.status = "completed" ∧
         CFG.findAccount (CFG.transfer db req uid tok now days).2.accounts i
             = some acc) := by
  constructor
  · intro db req requester tok now days hres2
    cases hv : PG.validateTransfer db req requester tok now days with
    | error e =>
      refine ⟨e.1, e.2, ?_⟩
      unfold PG.transfer
      rw [hv]
    | ok d =>
      obtain ⟨_, _, _, _, _, hneself⟩ :=
        pg_validate_ok_inv db req requester tok now days d hv
      exact absurd hres2 hneself
  · intro db req uid tok now days i acc amt hsid hrid hamt hpos hfa hown hfunds
    have hv := cfg_validate_internal db req uid tok now days i i acc acc amt
      hsid hrid hamt hpos hfa hown hfunds hfa
    unfold CFG.transfer
    rw [hv]
    refine ⟨_, rfl, rfl, ?_⟩
    simp only [CFG.applyTransfer]
    rw [cfg_findAccount_map _ _ (cfg_creditAcc_id acc.id amt) i,
      cfg_findAccount_map db.accounts _ (cfg_debitAcc_id acc.id amt) i, hfa]
    unfold CFG.debitAcc CFG.creditAcc
    simp

/-- C6 witness: part_000 rejects Alice's 40.00 transfer to her own email
with an error and no mutation, while config.js commits the 5.00 transfer
from account 10 to itself with status completed and the balance unchanged. -/
theorem c6_amended_self_transfer_witness :
    ((PG.resolveRecipient pgDb.users (normEmailOpt pgReqSelf.recipient_email)
         (normNameOpt pgReqSelf.recipient_name)).2
         = some (PG.senderEmailOf pgReqSelf "alice@bank.com")) ∧
    (∃ e m, PG.transfer pgDb pgReqSelf "alice@bank.com" "tok" 1000 7
        = (PG.Resp.err e m, pgDb)) ∧
    ((cfgReqSelf.sender_account_id = some 10) ∧
     (cfgReqSelf.recipient_account_id = some 10) ∧
     (cfgReqSelf.amount = some 500) ∧ ((0 : Int) < 500) ∧
     (CFG.findAccount cfgDb.accounts 10 = some ⟨10, 1, 10000, 10000, "checking"⟩) ∧
     ((500 : Int) ≤ 10000)) ∧
    (∃ row, (CFG.transfer cfgDb cfgReqSelf 1 "tok" 1000 7).1 = CFG.Resp.created row ∧
       row.status = "completed" ∧
       CFG.findAccount (CFG.transfer cfgDb cfgReqSelf 1 "tok" 1000 7).2.accounts 10
           = some ⟨10, 1, 10000, 10000, "checking"⟩) :=
  ⟨by decide,
   c6_amended_self_transfer.1 pgDb pgReqSelf "alice@bank.com" "tok" 1000 7 (by decide),
   by decide,
   c6_amended_self_transfer.2 cfgDb cfgReqSelf 1 "tok" 1000 7 10
     ⟨10, 1, 10000, 10000, "checking"⟩ 500
     (by decide) (by decide) (by decide) (by decide) (by decide) (by decide) (by decide)⟩

end ClaimC6
